import Mathlib

/-!
Verification development for the PrivacybyGnine image-privacy tool.

The TypeScript sources are shallowly embedded here:
* region geometry and the pointer state machine from
  `src/components/MultiShapeSelector.tsx` (definitions with `ms` names) and
  `src/components/ShapeAreaSelector.tsx` (definitions with `sas` names);
* the compositing pipelines `applyCircularBlurs` / `hideCircularAreas` from
  `src/tf/circularBlur.ts`.

Modelling conventions, used throughout:
* JS numbers on the interaction path are modelled as rationals; the compositor
  (Gaussian kernels need `exp`) is modelled over the reals.
* `Math.sqrt(s) <= r` is embedded as `0 ≤ r ∧ s ≤ r * r`, which is exactly
  equivalent over the reals because `s = dx²+dy² ≥ 0`.
* Where the source feeds a computed `Math.sqrt` VALUE into arithmetic (circle
  resize), the embedded function takes that distance as an explicit argument
  and theorems quantify over every possible value of it.
* Canvas rasterization (gradients, `fill`, `fromPixels`) is modelled
  analytically: the value of a pixel is the colour the drawing commands
  produce at the pixel centre `(px + 1/2, py + 1/2)`, ignoring antialiasing.
* JS object aliasing (needed to talk about in-place mutation of region
  records) is modelled with an explicit heap: an `areas` array is a list of
  references into a `Heap` of `Area` records.
-/

namespace PrivacyGnine

/-- Shape-specific payload of a region, mirroring the tagged union
`Area = CircleArea | RectangleArea | EllipseArea` of the selector components
(discriminant `shapeType`). -/
inductive Shape
  | circle (radius : ℚ)
  | rect (width height : ℚ)
  | ellipse (radiusX radiusY : ℚ)
deriving DecidableEq

/-- A region record: shared fields `id`, `x`, `y`, `blurIntensity` of
`BaseArea` plus the shape payload.  The JS string `id` is modelled as a
natural number. -/
structure Area where
  id : ℕ
  x : ℚ
  y : ℚ
  blurIntensity : ℚ
  shape : Shape
deriving DecidableEq

/-- Default record used for out-of-range array reads (the JS code never
performs one on the paths modelled here). -/
def defArea : Area :=
  { id := 0, x := 0, y := 0, blurIntensity := 0, shape := Shape.circle 0 }

/-! ### Geometry kernel: `isPointInShape` (MultiShapeSelector.tsx 255-290) -/

/-- `isPointInCircle` from MultiShapeSelector: `dx*dx + dy*dy <= r*r`. -/
def isPointInCircle (x y cx cy radius : ℚ) : Bool :=
  decide ((x - cx) * (x - cx) + (y - cy) * (y - cy) ≤ radius * radius)

/-- `isPointInRectangle` from MultiShapeSelector: axis-aligned bounds test. -/
def isPointInRectangle (x y cx cy width height : ℚ) : Bool :=
  decide (x ≥ cx - width / 2 ∧ x ≤ cx + width / 2 ∧
          y ≥ cy - height / 2 ∧ y ≤ cy + height / 2)

/-- `isPointInEllipse` from MultiShapeSelector: normalized-coordinate test. -/
def isPointInEllipse (x y cx cy radiusX radiusY : ℚ) : Bool :=
  decide (((x - cx) / radiusX) * ((x - cx) / radiusX) +
          ((y - cy) / radiusY) * ((y - cy) / radiusY) ≤ 1)

/-- `isPointInShape` from MultiShapeSelector: dispatch on the shape kind. -/
def isPointInShape (x y : ℚ) (area : Area) : Bool :=
  match area.shape with
  | Shape.circle r => isPointInCircle x y area.x area.y r
  | Shape.rect w h => isPointInRectangle x y area.x area.y w h
  | Shape.ellipse rx ry => isPointInEllipse x y area.x area.y rx ry

/-- The analytic containment condition exactly as the spec words it
(spec §4.1 `containsPoint`): circle by squared distance, rectangle by the
interval bounds, ellipse by the normalized quadratic form. -/
def containsPointSpec (area : Area) (x y : ℚ) : Prop :=
  match area.shape with
  | Shape.circle r => (x - area.x) ^ 2 + (y - area.y) ^ 2 ≤ r ^ 2
  | Shape.rect w h =>
      area.x - w / 2 ≤ x ∧ x ≤ area.x + w / 2 ∧
      area.y - h / 2 ≤ y ∧ y ≤ area.y + h / 2
  | Shape.ellipse rx ry =>
      ((x - area.x) / rx) ^ 2 + ((y - area.y) / ry) ^ 2 ≤ 1

/-- Size fields of a region are strictly positive (data-model invariant,
spec §3); under it the rational embedding of the ellipse division agrees
with the JS float semantics. -/
def sizesPositive (area : Area) : Prop :=
  match area.shape with
  | Shape.circle r => 0 < r
  | Shape.rect w h => 0 < w ∧ 0 < h
  | Shape.ellipse rx ry => 0 < rx ∧ 0 < ry

/-! ### Pointer-down selection (C3)

`MultiShapeSelector.handleMouseDown` scans regions with a downward `for`
loop (topmost first); `ShapeAreaSelector.handleMouseDown` uses
`areas.findIndex` (forward, bottommost first). -/

/-- The reverse containment loop of `MultiShapeSelector.handleMouseDown`
(`for (let i = areas.length - 1; i >= 0; i--)`): scans the indices below `n`
downward and returns the first — i.e. highest — index whose region contains
the point. -/
def msFindClickedFrom (areas : List Area) (px py : ℚ) : ℕ → Option ℕ
  | 0 => none
  | n + 1 =>
      if isPointInShape px py (areas.getD n defArea) then some n
      else msFindClickedFrom areas px py n

/-- The loop started from `areas.length`, as in the source. -/
def msFindClicked (areas : List Area) (px py : ℚ) : Option ℕ :=
  msFindClickedFrom areas px py areas.length

/-- JS `Array.prototype.findIndex`: index of the first element satisfying the
callback, scanning forward. -/
def jsFindIndex (p : Area → Bool) : List Area → Option ℕ
  | [] => none
  | a :: rest => if p a then some 0 else (jsFindIndex p rest).map (· + 1)

/-- `Math.sqrt s <= bound`, encoded by squaring; exactly equivalent over the
reals whenever `s ≥ 0` (always the case here: `s` is a sum of squares). -/
def sqrtLe (s bound : ℚ) : Bool := decide (0 ≤ bound ∧ s ≤ bound * bound)

/-- Containment callback of `ShapeAreaSelector.handleMouseDown`'s
`findIndex`: circle by `Math.sqrt(dx*dx+dy*dy) <= radius` (via `sqrtLe`),
rectangle by bounds, ellipse by the normalized quadratic form. -/
def sasContains (area : Area) (px py : ℚ) : Bool :=
  match area.shape with
  | Shape.circle r =>
      sqrtLe ((px - area.x) * (px - area.x) + (py - area.y) * (py - area.y)) r
  | Shape.rect w h =>
      decide (px ≥ area.x - w / 2 ∧ px ≤ area.x + w / 2 ∧
              py ≥ area.y - h / 2 ∧ py ≤ area.y + h / 2)
  | Shape.ellipse rx ry =>
      decide (((px - area.x) / rx) * ((px - area.x) / rx) +
              ((py - area.y) / ry) * ((py - area.y) / ry) ≤ 1)

/-- Decimal rendering of the double `Math.cos(Math.PI/4)` (`= Math.sin` up to
one ulp); the exact binary values differ from this rational by less than
`1e-15`, slack that no comparison in this development can observe. -/
def cos45 : ℚ := 7071067811865476 / 10 ^ 16

/-- The handle-name strings of the selector components. -/
def hRight : String := "right"

/-- Handle name `left`. -/
def hLeft : String := "left"

/-- Handle name `top`. -/
def hTop : String := "top"

/-- Handle name `bottom`. -/
def hBottom : String := "bottom"

/-- Handle name `topRight`. -/
def hTopRight : String := "topRight"

/-- Handle name `topLeft`. -/
def hTopLeft : String := "topLeft"

/-- Handle name `bottomRight`. -/
def hBottomRight : String := "bottomRight"

/-- Handle name `bottomLeft`. -/
def hBottomLeft : String := "bottomLeft"

/-- Handle hit radius in `MultiShapeSelector.getResizeHandleAt`
(`isMobileDevice() ? 15 : 10`). -/
def msHandleSize (mobile : Bool) : ℚ := if mobile then 15 else 10

/-- The literal `0.7071` used by the selector components for diagonal handle
positions. -/
def diag : ℚ := 7071 / 10000

/-- Handle positions of `MultiShapeSelector.getResizeHandleAt`: four
cardinal plus four diagonal positions for each shape kind. -/
def msHandlePositions (area : Area) : List (ℚ × ℚ × String) :=
  match area.shape with
  | Shape.circle r =>
      [(area.x + r, area.y, hRight), (area.x - r, area.y, hLeft),
       (area.x, area.y - r, hTop), (area.x, area.y + r, hBottom),
       (area.x + r * diag, area.y - r * diag, hTopRight),
       (area.x - r * diag, area.y - r * diag, hTopLeft),
       (area.x + r * diag, area.y + r * diag, hBottomRight),
       (area.x - r * diag, area.y + r * diag, hBottomLeft)]
  | Shape.rect w h =>
      [(area.x + w / 2, area.y, hRight), (area.x - w / 2, area.y, hLeft),
       (area.x, area.y - h / 2, hTop), (area.x, area.y + h / 2, hBottom),
       (area.x + w / 2, area.y - h / 2, hTopRight),
       (area.x - w / 2, area.y - h / 2, hTopLeft),
       (area.x + w / 2, area.y + h / 2, hBottomRight),
       (area.x - w / 2, area.y + h / 2, hBottomLeft)]
  | Shape.ellipse rx ry =>
      [(area.x + rx, area.y, hRight), (area.x - rx, area.y, hLeft),
       (area.x, area.y - ry, hTop), (area.x, area.y + ry, hBottom),
       (area.x + rx * diag, area.y - ry * diag, hTopRight),
       (area.x - rx * diag, area.y - ry * diag, hTopLeft),
       (area.x + rx * diag, area.y + ry * diag, hBottomRight),
       (area.x - rx * diag, area.y + ry * diag, hBottomLeft)]

/-- `MultiShapeSelector.getResizeHandleAt`: `null` when nothing is selected,
otherwise the first handle position within `handleSize` (squared-distance
comparison, exactly as in the source). -/
def msGetResizeHandleAt (mobile : Bool) (selected : Option ℕ) (x y : ℚ)
    (area : Area) : Option String :=
  match selected with
  | none => none
  | some _ =>
      ((msHandlePositions area).find? fun p =>
          decide ((x - p.1) * (x - p.1) + (y - p.2.1) * (y - p.2.1) ≤
            msHandleSize mobile * msHandleSize mobile)).map fun p => p.2.2

/-- Result of a pointer-down event in `MultiShapeSelector.handleMouseDown`:
begin resizing, select-and-drag an existing region, or create a new one. -/
inductive MsDownAction
  | resize (handle : String)
  | select (idx : ℕ)
  | create
deriving DecidableEq

/-- The select-or-create tail of `MultiShapeSelector.handleMouseDown`. -/
def msSelectOrCreate (areas : List Area) (px py : ℚ) : MsDownAction :=
  match msFindClicked areas px py with
  | some i => MsDownAction.select i
  | none => MsDownAction.create

/-- `MultiShapeSelector.handleMouseDown`: if a region is selected, its resize
handles are tested first; otherwise the reverse containment loop runs, and
if nothing is hit a region is created. -/
def msHandleMouseDown (mobile : Bool) (areas : List Area) (selected : Option ℕ)
    (px py : ℚ) : MsDownAction :=
  match selected with
  | some i =>
      match msGetResizeHandleAt mobile (some i) px py (areas.getD i defArea) with
      | some h => MsDownAction.resize h
      | none => msSelectOrCreate areas px py
  | none => msSelectOrCreate areas px py

/-- Hit radius of the resize-handle test inside
`ShapeAreaSelector.handleMouseDown` (`isMobileDevice() ? 12 : 8`). -/
def sasHitRadius (mobile : Bool) : ℚ := if mobile then 12 else 8

/-- Resize-handle test of `ShapeAreaSelector.handleMouseDown`, run on the
area found by `findIndex`: diagonal rim positions for a circle (at
`Math.cos`/`Math.sin` of odd multiples of π/4, modelled through `cos45`),
the four corners for a rectangle, the four axis endpoints for an ellipse;
each compared by `Math.sqrt(dx²+dy²) <= hitRadius` (via `sqrtLe`). -/
def sasHandleHit (mobile : Bool) (area : Area) (px py : ℚ) : Bool :=
  (match area.shape with
   | Shape.circle r =>
       [(area.x + r * cos45, area.y + r * cos45),
        (area.x - r * cos45, area.y + r * cos45),
        (area.x - r * cos45, area.y - r * cos45),
        (area.x + r * cos45, area.y - r * cos45)]
   | Shape.rect w h =>
       [(area.x - w / 2, area.y - h / 2), (area.x + w / 2, area.y - h / 2),
        (area.x + w / 2, area.y + h / 2), (area.x - w / 2, area.y + h / 2)]
   | Shape.ellipse rx ry =>
       [(area.x + rx, area.y), (area.x, area.y - ry),
        (area.x - rx, area.y), (area.x, area.y + ry)]).any fun p =>
    sqrtLe ((px - p.1) * (px - p.1) + (py - p.2) * (py - p.2))
      (sasHitRadius mobile)

/-- Result of a pointer-down event in `ShapeAreaSelector.handleMouseDown`. -/
inductive SasDownAction
  | resize (idx : ℕ)
  | drag (idx : ℕ)
  | create
deriving DecidableEq

/-- `ShapeAreaSelector.handleMouseDown`: forward `findIndex` for containment;
on a hit, a handle test decides between resizing and dragging; otherwise a
new region is created. -/
def sasHandleMouseDown (mobile : Bool) (areas : List Area) (px py : ℚ) :
    SasDownAction :=
  match jsFindIndex (fun a => sasContains a px py) areas with
  | some i =>
      if sasHandleHit mobile (areas.getD i defArea) px py then
        SasDownAction.resize i
      else SasDownAction.drag i
  | none => SasDownAction.create

/-- The index a `ShapeAreaSelector` pointer-down selects (both the resize and
the drag branch call `setSelectedAreaIndex` with the `findIndex` result). -/
def sasSelectedIdx : SasDownAction → Option ℕ
  | SasDownAction.resize i => some i
  | SasDownAction.drag i => some i
  | SasDownAction.create => none

/-- Concrete region used to instantiate the C3 theorems: a circle of radius
30 centred at (50, 50). -/
def c3AreaA : Area := { id := 0, x := 50, y := 50, blurIntensity := 50, shape := Shape.circle 30 }

/-- Second concrete region for C3: a circle of radius 30 centred at (55, 50);
it also contains the probe point (50, 50) and sits above `c3AreaA` in paint
order. -/
def c3AreaB : Area := { id := 1, x := 55, y := 50, blurIntensity := 50, shape := Shape.circle 30 }

/-! ### Resizing and dragging (C4, C5, C6)

`MultiShapeSelector.handleMouseMove` / `handleTouchMove` contain the same
resizing and dragging logic (only the coordinate source differs); they are
embedded once.  JS object aliasing is made explicit through `Heap`. -/

/-- `needle` is an initial run of `hay` (character-list version). -/
def charsLead : List Char → List Char → Bool
  | [], _ => true
  | _ :: _, [] => false
  | a :: as, b :: bs => a == b && charsLead as bs

/-- `needle` occurs contiguously somewhere in the character list. -/
def charsOccur (needle : List Char) : List Char → Bool
  | [] => charsLead needle []
  | b :: bs => charsLead needle (b :: bs) || charsOccur needle bs

/-- JS `String.prototype.includes` (case-sensitive substring test), as used
by `resizeHandle.includes('right')` etc. -/
def jsIncludes (hay needle : String) : Bool := charsOccur needle.data hay.data

/-- Circle case of the resizing branch of
`MultiShapeSelector.handleMouseMove`: the chain of case-sensitive
`includes` tests, each producing `Math.max(10, …)` with no upper clamp.
`dist` is the value of `Math.sqrt(dx*dx + dy*dy)` of the final (diagonal)
branch, passed as an argument. -/
def msResizeCircleRadius (handle : String) (dx dy dist : ℚ) : ℚ :=
  if jsIncludes handle hRight then max 10 |dx|
  else if jsIncludes handle hLeft then max 10 |dx|
  else if jsIncludes handle hTop then max 10 |dy|
  else if jsIncludes handle hBottom then max 10 |dy|
  else max 10 dist

/-- Rectangle case of the same branch: corner handles set both dimensions,
cardinal handles one, each `Math.max(20, …)` with no upper clamp; an
unrecognized handle leaves the dimensions alone. -/
def msResizeRectDims (cx cy w h : ℚ) (handle : String) (mx my : ℚ) : ℚ × ℚ :=
  if handle = hTopRight then (max 20 ((mx - cx) * 2), max 20 ((cy - my) * 2))
  else if handle = hTopLeft then (max 20 ((cx - mx) * 2), max 20 ((cy - my) * 2))
  else if handle = hBottomRight then (max 20 ((mx - cx) * 2), max 20 ((my - cy) * 2))
  else if handle = hBottomLeft then (max 20 ((cx - mx) * 2), max 20 ((my - cy) * 2))
  else if handle = hRight then (max 20 ((mx - cx) * 2), h)
  else if handle = hLeft then (max 20 ((cx - mx) * 2), h)
  else if handle = hTop then (w, max 20 ((cy - my) * 2))
  else if handle = hBottom then (w, max 20 ((my - cy) * 2))
  else (w, h)

/-- Ellipse case of the same branch: corner handles set both radii from the
absolute offsets, cardinal handles one, each `Math.max(10, …)`. -/
def msResizeEllipseRadii (cx cy rx ry : ℚ) (handle : String) (mx my : ℚ) : ℚ × ℚ :=
  if handle = hTopRight ∨ handle = hBottomRight ∨
     handle = hTopLeft ∨ handle = hBottomLeft then
    (max 10 |mx - cx|, max 10 |my - cy|)
  else if handle = hRight ∨ handle = hLeft then (max 10 |mx - cx|, ry)
  else if handle = hTop ∨ handle = hBottom then (rx, max 10 |my - cy|)
  else (rx, ry)

/-- The full record update computed by the resizing branch of
`MultiShapeSelector.handleMouseMove` for the selected record. -/
def msResizeArea (a : Area) (handle : String) (mx my dist : ℚ) : Area :=
  match a.shape with
  | Shape.circle _ =>
      { a with shape :=
          Shape.circle (msResizeCircleRadius handle (mx - a.x) (my - a.y) dist) }
  | Shape.rect w h =>
      let d := msResizeRectDims a.x a.y w h handle mx my
      { a with shape := Shape.rect d.1 d.2 }
  | Shape.ellipse rx ry =>
      let d := msResizeEllipseRadii a.x a.y rx ry handle mx my
      { a with shape := Shape.ellipse d.1 d.2 }

/-- Explicit JS heap of `Area` records; an `areas` array value is a list of
references (cell indices) into the heap. -/
structure Heap where
  recs : List Area
deriving DecidableEq

/-- Dereference (out-of-range reads return the default record; the modelled
paths never perform one). -/
def Heap.get (hp : Heap) (r : ℕ) : Area := hp.recs.getD r defArea

/-- Overwrite the record in cell `r` (JS in-place field assignment). -/
def Heap.setRec (hp : Heap) (r : ℕ) (a : Area) : Heap := ⟨hp.recs.set r a⟩

/-- Allocate a fresh record (JS object-literal / spread creation); returns
the new heap and the fresh reference. -/
def Heap.alloc (hp : Heap) (a : Area) : Heap × ℕ := (⟨hp.recs ++ [a]⟩, hp.recs.length)

/-- Resizing branch of `MultiShapeSelector.handleMouseMove`:
`const updatedAreas = [...areas]` is a shallow copy sharing the region
records, `const area = updatedAreas[selectedAreaIndex]` aliases the shared
record, and the subsequent field assignments mutate it in place; the shallow
copy (same references) is what reaches `setAreas`. -/
def msMouseMoveResizing (hp : Heap) (areas : List ℕ) (selectedIdx : ℕ)
    (handle : String) (mx my dist : ℚ) : Heap × List ℕ :=
  let r := areas.getD selectedIdx 0
  (hp.setRec r (msResizeArea (hp.get r) handle mx my dist), areas)

/-- Dragging branch of `MultiShapeSelector.handleMouseMove`:
`updatedAreas[selectedAreaIndex] = { ...old, x: mousePos.x, y: mousePos.y }`
allocates a fresh record with the centre set to the raw pointer position
(no boundary clamping) and stores the fresh reference. -/
def msMouseMoveDragging (hp : Heap) (areas : List ℕ) (selectedIdx : ℕ)
    (mx my : ℚ) : Heap × List ℕ :=
  let r := areas.getD selectedIdx 0
  let fresh := hp.alloc { hp.get r with x := mx, y := my }
  (fresh.1, areas.set selectedIdx fresh.2)

/-- `minSize` of `ShapeAreaSelector.handleMouseMove`'s resizing branch
(`isMobileDevice() ? 20 : 10`). -/
def sasMinSize (mobile : Bool) : ℚ := if mobile then 20 else 10

/-- `maxSize`: half the smaller canvas dimension. -/
def sasMaxSize (canvasW canvasH : ℚ) : ℚ := min canvasW canvasH / 2

/-- Circle case of `ShapeAreaSelector`'s resizing branch: smooth easing near
both bounds, then the hard clamp
`Math.max(minSize, Math.min(maxSize, newRadius))`.  `distance` is the value
of `Math.sqrt(dx*dx + dy*dy)`, passed as an argument. -/
def sasResizeCircleRadius (minSize maxSize distance : ℚ) : ℚ :=
  let r1 := distance
  let r2 := if distance < minSize + 5 then
      minSize + (distance - minSize) * max 0 ((distance - minSize) / 5)
    else r1
  let r3 := if distance > maxSize - 10 then
      maxSize - (maxSize - distance) * max 0 ((maxSize - distance) / 10)
    else r2
  max minSize (min maxSize r3)

/-- Rectangle case: both dimensions clamped to `[minSize, maxSize * 2]`. -/
def sasResizeRectDims (minSize maxSize dx dy : ℚ) : ℚ × ℚ :=
  (max minSize (min (maxSize * 2) (|dx| * 2)),
   max minSize (min (maxSize * 2) (|dy| * 2)))

/-- Ellipse case: both radii clamped to `[minSize, maxSize]`. -/
def sasResizeEllipseRadii (minSize maxSize dx dy : ℚ) : ℚ × ℚ :=
  (max minSize (min maxSize |dx|), max minSize (min maxSize |dy|))

/-- Per-axis boundary clamp of `ShapeAreaSelector`'s dragging branch:
`Math.max(margin, Math.min(canvas - margin, newCoord))`. -/
def sasConstrain (margin canvas newCoord : ℚ) : ℚ :=
  max margin (min (canvas - margin) newCoord)

/-- Half extent of a shape along the x axis (the margin used by the clamp). -/
def halfSizeX : Shape → ℚ
  | Shape.circle r => r
  | Shape.rect w _ => w / 2
  | Shape.ellipse rx _ => rx

/-- Half extent of a shape along the y axis. -/
def halfSizeY : Shape → ℚ
  | Shape.circle r => r
  | Shape.rect _ h => h / 2
  | Shape.ellipse _ ry => ry

/-- Dragging branch of `ShapeAreaSelector.handleMouseMove`: move the centre
by the pointer delta, then clamp each coordinate so the extent stays inside
the canvas. -/
def sasDragArea (a : Area) (canvasW canvasH dx dy : ℚ) : Area :=
  { a with
    x := sasConstrain (halfSizeX a.shape) canvasW (a.x + dx),
    y := sasConstrain (halfSizeY a.shape) canvasH (a.y + dy) }

/-- Concrete region for the C5 theorems: a circle of radius 30 at (50, 50). -/
def c5Area : Area := { id := 0, x := 50, y := 50, blurIntensity := 50, shape := Shape.circle 30 }

/-- Concrete region for the C6 theorems: a circle of radius 30 at (0, 0). -/
def c6Area : Area := { id := 0, x := 0, y := 0, blurIntensity := 50, shape := Shape.circle 30 }

/-! ### Compositor (`src/tf/circularBlur.ts`): C1, C2, C8, C9, C10

Rasters are real-valued; `tf.depthwiseConv2d(..., 'same')` zero-pads.
Canvas rasterization is modelled at pixel centres (file header). -/

/-- `CircleArea` of `CircularAreaSelector.tsx`, consumed by
`circularBlur.ts`. -/
structure CircleArea where
  id : ℕ
  x : ℚ
  y : ℚ
  radius : ℚ
  blurIntensity : ℚ
deriving DecidableEq

/-- Feather-band width of the per-area blur mask in
`circularBlur.ts applyCircularBlurs`: `Math.max(5, radius * 0.1)`. -/
def blurFeatherCircle (radius : ℚ) : ℚ := max 5 (radius * 0.1)

/-- Feather-band width in `circularBlur.ts hideCircularAreas`:
`Math.max(3, radius * 0.1)`. -/
def hideFeatherCircle (radius : ℚ) : ℚ := max 3 (radius * 0.1)

/-- Blur-mask feather widths of the multi-shape pipeline (the module
concatenated into `App.tsx`): circle `max(5, radius*0.1)`, rectangle
`max(5, min(width, height)*0.1)`, ellipse `max(5, min(radiusX, radiusY)*0.1)`
(all in canvas-scaled units). -/
def blurFeatherRect (w h : ℚ) : ℚ := max 5 (min w h * 0.1)

/-- Ellipse blur-mask feather width of the multi-shape pipeline. -/
def blurFeatherEllipse (rx ry : ℚ) : ℚ := max 5 (min rx ry * 0.1)

/-- Rectangle hide-mode feather width of the multi-shape
`hideCircularAreas`: `Math.max(3, Math.min(width, height) * 0.1)`. -/
def hideFeatherRect (w h : ℚ) : ℚ := max 3 (min w h * 0.1)

/-- Ellipse hide-mode feather width of the multi-shape `hideCircularAreas`:
`Math.max(3, Math.min(radiusX, radiusY) * 0.1)`. -/
def hideFeatherEllipse (rx ry : ℚ) : ℚ := max 3 (min rx ry * 0.1)

/-- Characteristic size exactly as the spec words it (§4.3): radius for a
circle, `min(width, height)/2` for a rectangle, `min(radiusX, radiusY)` for
an ellipse. -/
def charSize : Shape → ℚ
  | Shape.circle r => r
  | Shape.rect w h => min w h / 2
  | Shape.ellipse rx ry => min rx ry

/-- The feather width exactly as the spec words it:
`max(3, 0.1 × characteristic-size)`. -/
def specFeatherWidth (s : Shape) : ℚ := max 3 (0.1 * charSize s)

/-- A raster: a real value per (row, column, channel). -/
def Image : Type := ℕ → ℕ → Fin 3 → ℝ

/-- Zero-padded read used by `'same'`-padded convolution. -/
noncomputable def extImage (h w : ℕ) (img : Image) (y x : ℤ) (ch : Fin 3) : ℝ :=
  if 0 ≤ y ∧ y < (h : ℤ) ∧ 0 ≤ x ∧ x < (w : ℤ) then img y.toNat x.toNat ch else 0

/-- `tf.depthwiseConv2d(img, K, [1, 1], 'same')` with a k×k kernel shared by
all channels, anchored at the centre `(k-1)/2` (k is odd in every code
path). -/
noncomputable def depthwiseConv2d (h w k : ℕ) (K : ℕ → ℕ → ℝ) (img : Image) : Image :=
  fun y x ch =>
    ∑ i ∈ Finset.range k, ∑ j ∈ Finset.range k,
      K i j * extImage h w img ((y : ℤ) + i - ((k - 1) / 2 : ℕ))
        ((x : ℤ) + j - ((k - 1) / 2 : ℕ)) ch

/-- Horizontal pass of a separable convolution: a 1×k kernel. -/
noncomputable def conv1dRow (h w k : ℕ) (K1 : ℕ → ℝ) (img : Image) : Image :=
  fun y x ch =>
    ∑ j ∈ Finset.range k, K1 j * extImage h w img y ((x : ℤ) + j - ((k - 1) / 2 : ℕ)) ch

/-- Vertical pass of a separable convolution: a k×1 kernel. -/
noncomputable def conv1dCol (h w k : ℕ) (K1 : ℕ → ℝ) (img : Image) : Image :=
  fun y x ch =>
    ∑ i ∈ Finset.range k, K1 i * extImage h w img ((y : ℤ) + i - ((k - 1) / 2 : ℕ)) x ch

/-- `sigma = area.blurIntensity / 10`. -/
def sigmaOf (intensity : ℚ) : ℚ := intensity / 10

/-- `Math.max(3, Math.floor(sigma * 3)) | 1` — the bitwise-or forces the
kernel size odd (rounding even sizes up). -/
def kernelSizeOf (sigma : ℚ) : ℕ := (max 3 (Int.floor (sigma * 3))).toNat ||| 1

/-- Unnormalized 1D Gaussian tap `Math.exp(-(x * x) / (2 * sigma * sigma))`
with `x = i - (kernelSize - 1) / 2`. -/
noncomputable def gaussRaw (sigma : ℚ) (k : ℕ) (i : ℕ) : ℝ :=
  Real.exp (-(((i : ℝ) - ((k : ℝ) - 1) / 2) * ((i : ℝ) - ((k : ℝ) - 1) / 2)) /
    (2 * (sigma : ℝ) * (sigma : ℝ)))

/-- The normalization sum of the taps. -/
noncomputable def gaussSum (sigma : ℚ) (k : ℕ) : ℝ :=
  ∑ i ∈ Finset.range k, gaussRaw sigma k i

/-- Normalized 1D Gaussian tap (`kernel.map(v => v / sum)`). -/
noncomputable def gauss1 (sigma : ℚ) (k : ℕ) (i : ℕ) : ℝ :=
  gaussRaw sigma k i / gaussSum sigma k

/-- `tf.outerProduct(gauss, gauss)` — the full 2D kernel stored as
`rgbKernel`. -/
noncomputable def kernel2d (sigma : ℚ) (k : ℕ) (i j : ℕ) : ℝ :=
  gauss1 sigma k i * gauss1 sigma k j

/-- The per-area transform of `circularBlur.ts applyCircularBlurs`
(lines 140-163): two passes of `tf.depthwiseConv2d` that BOTH use
`rgbKernel`, the full 2D outer-product kernel — the separable 1D kernels
built alongside are disposed without being used — applied to `imageTensor`,
the original input of the function. -/
noncomputable def codeBlurOne (h w : ℕ) (sigma : ℚ) (img : Image) : Image :=
  depthwiseConv2d h w (kernelSizeOf sigma) (kernel2d sigma (kernelSizeOf sigma))
    (depthwiseConv2d h w (kernelSizeOf sigma) (kernel2d sigma (kernelSizeOf sigma)) img)

/-- Canvas-modelled value of the per-area feathered mask of
`circularBlur.ts applyCircularBlurs` at a pixel (sampled at the pixel
centre): white (1) background, a radial gradient from opaque black at
`radius - featherAmount` to transparent at `radius` painted over it, and a
solid black (0) centre.  Inside the band the painted value is the gradient
fraction. -/
noncomputable def areaMaskValue (imageW imageH : ℚ) (w h : ℕ) (a : CircleArea)
    (py px : ℕ) : ℝ :=
  let scaleX : ℚ := (w : ℚ) / imageW
  let scaleY : ℚ := (h : ℚ) / imageH
  let cx : ℚ := a.x * scaleX
  let cy : ℚ := a.y * scaleY
  let radius : ℚ := a.radius * min scaleX scaleY
  let f : ℚ := blurFeatherCircle radius
  let d : ℝ := Real.sqrt (((px : ℝ) + 1 / 2 - (cx : ℝ)) ^ 2 +
    ((py : ℝ) + 1 / 2 - (cy : ℝ)) ^ 2)
  if d ≤ ((radius - f : ℚ) : ℝ) then 0
  else if d ≤ ((radius : ℚ) : ℝ) then (d - ((radius - f : ℚ) : ℝ)) / ((f : ℚ) : ℝ)
  else 1

/-- One step of the blend loop:
`result * areaMaskRGB + blurredTensor * invAreaMaskRGB` (the mask broadcast
across channels); when `canvas.getContext('2d')` fails the mask falls back
to `tf.ones`. -/
noncomputable def blendStep (ctxOk : Bool) (imageW imageH : ℚ) (w h : ℕ)
    (result blurred : Image) (a : CircleArea) : Image :=
  fun y x ch =>
    let m : ℝ := if ctxOk then areaMaskValue imageW imageH w h a y x else 1
    result y x ch * m + blurred y x ch * (1 - m)

/-- `circularBlur.ts applyCircularBlurs`: early return on an empty area
list; otherwise the per-area blurred tensors are computed from the ORIGINAL
input and blended one after the other through each area's mask. -/
noncomputable def applyCircularBlurs (ctxOk : Bool) (imageW imageH : ℚ) (h w : ℕ)
    (img : Image) (areas : List CircleArea) : Image :=
  if areas = [] then img
  else
    (areas.map fun a => (a, codeBlurOne h w (sigmaOf a.blurIntensity) img)).foldl
      (fun result ab => blendStep ctxOk imageW imageH w h result ab.2 ab.1) img

/-- Kernel size exactly as claim C1 words it: `max(3, floor(sigma * 3))`
(without the code's bitwise-or). -/
def specKernelSize (sigma : ℚ) : ℕ := (max 3 (Int.floor (sigma * 3))).toNat

/-- A two-pass separable Gaussian blur exactly as the spec words it: a
horizontal 1D pass followed by a vertical 1D pass of the normalized
Gaussian. -/
noncomputable def sepGaussBlur (h w : ℕ) (sigma : ℚ) (img : Image) : Image :=
  conv1dCol h w (specKernelSize sigma) (gauss1 sigma (specKernelSize sigma))
    (conv1dRow h w (specKernelSize sigma) (gauss1 sigma (specKernelSize sigma)) img)

/-- The compositing pipeline exactly as claim C1 states it: for each region
in paint order, the image blended through that region's mask is a two-pass
separable Gaussian blur of the ENTIRE CURRENT RESULT (the image as already
modified by earlier regions).  The masks are the code's own (the claim does
not dispute them). -/
noncomputable def claimC1Composite (ctxOk : Bool) (imageW imageH : ℚ) (h w : ℕ)
    (img : Image) (areas : List CircleArea) : Image :=
  if areas = [] then img
  else
    areas.foldl
      (fun result a => blendStep ctxOk imageW imageH w h result
        (sepGaussBlur h w (sigmaOf a.blurIntensity) result) a) img

/-- The amended C1 pipeline: each region's transform is the code's blur —
two passes of the full 2D kernel, size `(max(3, floor(3σ))) | 1` — of the
ORIGINAL input image, blended in paint order. -/
noncomputable def amendedC1Composite (ctxOk : Bool) (imageW imageH : ℚ) (h w : ℕ)
    (img : Image) (areas : List CircleArea) : Image :=
  if areas = [] then img
  else
    areas.foldl
      (fun result a => blendStep ctxOk imageW imageH w h result
        (codeBlurOne h w (sigmaOf a.blurIntensity) img) a) img

/-- Canvas-modelled paint alpha of `circularBlur.ts hideCircularAreas` for
one area at a pixel: with feathering, opaque fill inside
`radius - featherAmount`, a gradient fading to transparent at `radius`;
without feathering, opaque fill inside `radius`. -/
noncomputable def hideAlpha (imageW imageH : ℚ) (w h : ℕ) (feather : Bool)
    (a : CircleArea) (py px : ℕ) : ℝ :=
  let scaleX : ℚ := (w : ℚ) / imageW
  let scaleY : ℚ := (h : ℚ) / imageH
  let cx : ℚ := a.x * scaleX
  let cy : ℚ := a.y * scaleY
  let radius : ℚ := a.radius * min scaleX scaleY
  let d : ℝ := Real.sqrt (((px : ℝ) + 1 / 2 - (cx : ℝ)) ^ 2 +
    ((py : ℝ) + 1 / 2 - (cy : ℝ)) ^ 2)
  if feather then
    let f : ℚ := hideFeatherCircle radius
    if d ≤ ((radius - f : ℚ) : ℝ) then 1
    else if d ≤ ((radius : ℚ) : ℝ) then 1 - (d - ((radius - f : ℚ) : ℝ)) / ((f : ℚ) : ℝ)
    else 0
  else if d ≤ ((radius : ℚ) : ℝ) then 1 else 0

/-- `circularBlur.ts hideCircularAreas`: early return on an empty area list;
early return of the input when the 2D context cannot be acquired; otherwise
the image is drawn to a canvas and each area's (feathered) fill is painted
over it in order (source-over blending towards the fill colour). -/
noncomputable def hideCircularAreas (ctxOk : Bool) (imageW imageH : ℚ) (w h : ℕ)
    (color : Fin 3 → ℝ) (feather : Bool) (img : Image) (areas : List CircleArea) :
    Image :=
  if areas = [] then img
  else if ctxOk then
    areas.foldl
      (fun result a => fun y x ch =>
        result y x ch * (1 - hideAlpha imageW imageH w h feather a y x) +
          color ch * hideAlpha imageW imageH w h feather a y x) img
  else img

/-- 1×1 probe image, every channel 1. -/
def c1Img : Image := fun _ _ _ => 1

/-- First probe region: circle over the whole 1×1 raster, intensity 10
(σ = 1). -/
def c1AreaA : CircleArea :=
  { id := 0, x := 1 / 2, y := 1 / 2, radius := 10, blurIntensity := 10 }

/-- Second probe region: same circle, intensity 30 (σ = 3). -/
def c1AreaB : CircleArea :=
  { id := 1, x := 1 / 2, y := 1 / 2, radius := 10, blurIntensity := 30 }

/-! ### C2: the σ = 0 kernel under JS float semantics

At `blurIntensity = 0` the kernel construction divides by `2*sigma*sigma =
0`; the real-valued idealization above cannot express the resulting
NaN/Infinity values, so the kernel computation and the pipeline are
re-embedded over a JS-number type.  Signed zero is not modelled (only +0);
none of the computations below distinguish it. -/

/-- A JS double as this development needs it: a real value, NaN, or an
infinity. -/
inductive JSNum
  | real (r : ℝ)
  | nan
  | inf
  | neginf

/-- JS addition (`+`). -/
noncomputable def jadd : JSNum → JSNum → JSNum
  | JSNum.real a, JSNum.real b => JSNum.real (a + b)
  | JSNum.nan, _ => JSNum.nan
  | _, JSNum.nan => JSNum.nan
  | JSNum.inf, JSNum.neginf => JSNum.nan
  | JSNum.neginf, JSNum.inf => JSNum.nan
  | JSNum.inf, _ => JSNum.inf
  | _, JSNum.inf => JSNum.inf
  | JSNum.neginf, _ => JSNum.neginf
  | _, JSNum.neginf => JSNum.neginf

/-- JS multiplication (`*`); `Infinity * 0 = NaN`. -/
noncomputable def jmul : JSNum → JSNum → JSNum
  | JSNum.real a, JSNum.real b => JSNum.real (a * b)
  | JSNum.nan, _ => JSNum.nan
  | _, JSNum.nan => JSNum.nan
  | JSNum.inf, JSNum.real b =>
      if b = 0 then JSNum.nan else if 0 < b then JSNum.inf else JSNum.neginf
  | JSNum.real a, JSNum.inf =>
      if a = 0 then JSNum.nan else if 0 < a then JSNum.inf else JSNum.neginf
  | JSNum.neginf, JSNum.real b =>
      if b = 0 then JSNum.nan else if 0 < b then JSNum.neginf else JSNum.inf
  | JSNum.real a, JSNum.neginf =>
      if a = 0 then JSNum.nan else if 0 < a then JSNum.neginf else JSNum.inf
  | JSNum.inf, JSNum.inf => JSNum.inf
  | JSNum.inf, JSNum.neginf => JSNum.neginf
  | JSNum.neginf, JSNum.inf => JSNum.neginf
  | JSNum.neginf, JSNum.neginf => JSNum.inf

/-- JS division (`/`); `0/0 = NaN`, nonzero/0 = ±Infinity. -/
noncomputable def jdiv : JSNum → JSNum → JSNum
  | JSNum.real a, JSNum.real b =>
      if b = 0 then
        (if a = 0 then JSNum.nan else if 0 < a then JSNum.inf else JSNum.neginf)
      else JSNum.real (a / b)
  | JSNum.nan, _ => JSNum.nan
  | _, JSNum.nan => JSNum.nan
  | JSNum.inf, JSNum.real b => if 0 ≤ b then JSNum.inf else JSNum.neginf
  | JSNum.neginf, JSNum.real b => if 0 ≤ b then JSNum.neginf else JSNum.inf
  | JSNum.real _, JSNum.inf => JSNum.real 0
  | JSNum.real _, JSNum.neginf => JSNum.real 0
  | JSNum.inf, _ => JSNum.nan
  | JSNum.neginf, _ => JSNum.nan

/-- JS unary minus. -/
noncomputable def jneg : JSNum → JSNum
  | JSNum.real a => JSNum.real (-a)
  | JSNum.nan => JSNum.nan
  | JSNum.inf => JSNum.neginf
  | JSNum.neginf => JSNum.inf

/-- `Math.exp`. -/
noncomputable def jexp : JSNum → JSNum
  | JSNum.real a => JSNum.real (Real.exp a)
  | JSNum.nan => JSNum.nan
  | JSNum.inf => JSNum.inf
  | JSNum.neginf => JSNum.real 0

/-- `kernel.reduce((a, b) => a + b, 0)`. -/
noncomputable def jsum (l : List JSNum) : JSNum := l.foldl jadd (JSNum.real 0)

/-- Raw kernel tap under JS semantics:
`Math.exp(-(x * x) / (2 * sigma * sigma))`. -/
noncomputable def jsGaussRaw (sigma : ℚ) (k : ℕ) (i : ℕ) : JSNum :=
  jexp (jdiv
    (jneg (JSNum.real (((i : ℝ) - ((k : ℝ) - 1) / 2) * ((i : ℝ) - ((k : ℝ) - 1) / 2))))
    (JSNum.real (2 * (sigma : ℝ) * (sigma : ℝ))))

/-- The tap list `Array.from({length: kernelSize}, ...)`. -/
noncomputable def jsGaussKernel (sigma : ℚ) (k : ℕ) : List JSNum :=
  (List.range k).map (jsGaussRaw sigma k)

/-- Normalized tap `v / sum`. -/
noncomputable def jsGauss1 (sigma : ℚ) (k : ℕ) (i : ℕ) : JSNum :=
  jdiv (jsGaussRaw sigma k i) (jsum (jsGaussKernel sigma k))

/-- Outer-product tap of `rgbKernel` under JS semantics. -/
noncomputable def jsKernel2d (sigma : ℚ) (k : ℕ) (i j : ℕ) : JSNum :=
  jmul (jsGauss1 sigma k i) (jsGauss1 sigma k j)

/-- A raster of JS numbers. -/
def JImage : Type := ℕ → ℕ → Fin 3 → JSNum

/-- Zero-padded read (`'same'` padding) over JS numbers. -/
noncomputable def jsExtImage (h w : ℕ) (img : JImage) (y x : ℤ) (ch : Fin 3) : JSNum :=
  if 0 ≤ y ∧ y < (h : ℤ) ∧ 0 ≤ x ∧ x < (w : ℤ) then img y.toNat x.toNat ch
  else JSNum.real 0

/-- `tf.depthwiseConv2d` over JS numbers: the kernel-window products summed
row by row (float addition is not associative in general; the grouping is a
modelling choice and is irrelevant to the NaN propagation proved here). -/
noncomputable def jsDepthwiseConv2d (h w k : ℕ) (K : ℕ → ℕ → JSNum)
    (img : JImage) : JImage :=
  fun y x ch =>
    jsum ((List.range k).map fun i =>
      jsum ((List.range k).map fun j =>
        jmul (K i j) (jsExtImage h w img ((y : ℤ) + i - ((k - 1) / 2 : ℕ))
          ((x : ℤ) + j - ((k - 1) / 2 : ℕ)) ch)))

/-- The per-area transform of `applyCircularBlurs` under JS semantics: two
depthwise passes of the full 2D kernel against the original input. -/
noncomputable def jsCodeBlurOne (h w : ℕ) (sigma : ℚ) (img : JImage) : JImage :=
  jsDepthwiseConv2d h w (kernelSizeOf sigma) (jsKernel2d sigma (kernelSizeOf sigma))
    (jsDepthwiseConv2d h w (kernelSizeOf sigma) (jsKernel2d sigma (kernelSizeOf sigma)) img)

/-- One blend step over JS numbers; the mask values come from the canvas
and are plain numbers in [0, 1]. -/
noncomputable def jsBlendStep (ctxOk : Bool) (imageW imageH : ℚ) (w h : ℕ)
    (result blurred : JImage) (a : CircleArea) : JImage :=
  fun y x ch =>
    let m : ℝ := if ctxOk then areaMaskValue imageW imageH w h a y x else 1
    jadd (jmul (result y x ch) (JSNum.real m))
      (jmul (blurred y x ch) (JSNum.real (1 - m)))

/-- `applyCircularBlurs` over JS numbers (same structure as the real-valued
embedding). -/
noncomputable def jsApplyCircularBlurs (ctxOk : Bool) (imageW imageH : ℚ)
    (h w : ℕ) (img : JImage) (areas : List CircleArea) : JImage :=
  if areas = [] then img
  else
    (areas.map fun a => (a, jsCodeBlurOne h w (sigmaOf a.blurIntensity) img)).foldl
      (fun result ab => jsBlendStep ctxOk imageW imageH w h result ab.2 ab.1) img

/-- 1×1 probe image for C2: every channel 1/2. -/
noncomputable def c2Img : JImage := fun _ _ _ => JSNum.real (1 / 2)

/-- Probe region for C2: a circle covering the whole 1×1 raster with
`blurIntensity = 0`. -/
def c2Area : CircleArea :=
  { id := 0, x := 1 / 2, y := 1 / 2, radius := 10, blurIntensity := 0 }

/-! ### Theorems -/

/-- C7: for every region with positive sizes and every point, `isPointInShape`
returns true exactly when the analytic condition for the region's shape kind
holds: squared distance ≤ radius² for a circle, the axis-aligned interval
test for a rectangle, and `(dx/rx)² + (dy/ry)² ≤ 1` for an ellipse. -/
theorem isPointInShape_iff_containsPointSpec (area : Area) (x y : ℚ)
    (_hpos : sizesPositive area) :
    isPointInShape x y area = true ↔ containsPointSpec area x y := by
  cases harea : area.shape with
  | circle r =>
      simp only [isPointInShape, harea, isPointInCircle, containsPointSpec,
        decide_eq_true_eq]
      constructor <;> intro h <;> nlinarith [h]
  | rect w h =>
      simp only [isPointInShape, harea, isPointInRectangle, containsPointSpec,
        decide_eq_true_eq]
  | ellipse rx ry =>
      simp only [isPointInShape, harea, isPointInEllipse, containsPointSpec,
        decide_eq_true_eq]
      constructor <;> intro h <;> nlinarith [h]

/-- Witness for C7: the point (3,4) lies in the circle of radius 5 at the
origin, and the theorem's conclusion evaluates accordingly. -/
theorem isPointInShape_iff_containsPointSpec_witness :
    sizesPositive { defArea with shape := Shape.circle 5 } ∧
    (isPointInShape 3 4 { defArea with shape := Shape.circle 5 } = true ↔
      containsPointSpec { defArea with shape := Shape.circle 5 } 3 4) :=
  ⟨by simp [sizesPositive], isPointInShape_iff_containsPointSpec _ 3 4 (by simp [sizesPositive])⟩

theorem msFindClickedFrom_eq_some (areas : List Area) (px py : ℚ) (n i : ℕ) :
    msFindClickedFrom areas px py n = some i ↔
      i < n ∧ isPointInShape px py (areas.getD i defArea) = true ∧
        ∀ j, i < j → j < n → isPointInShape px py (areas.getD j defArea) = false := by
  induction n with
  | zero => simp [msFindClickedFrom]
  | succ n ih =>
      by_cases hn : isPointInShape px py (areas.getD n defArea) = true
      · simp only [msFindClickedFrom]
        rw [if_pos hn, Option.some_inj]
        constructor
        · rintro rfl
          exact ⟨Nat.lt_succ_self n, hn, fun j hj hj2 => absurd hj2 (by omega)⟩
        · rintro ⟨hi, hci, hmax⟩
          rcases Nat.lt_succ_iff_lt_or_eq.mp hi with h | rfl
          · have hfalse := hmax n h (Nat.lt_succ_self n)
            rw [hn] at hfalse
            exact Bool.noConfusion hfalse
          · rfl
      · simp only [msFindClickedFrom]
        rw [if_neg hn, ih]
        constructor
        · rintro ⟨hi, hci, hmax⟩
          refine ⟨Nat.lt_succ_of_lt hi, hci, fun j hj hj2 => ?_⟩
          rcases Nat.lt_succ_iff_lt_or_eq.mp hj2 with h | rfl
          · exact hmax j hj h
          · simpa using hn
        · rintro ⟨hi, hci, hmax⟩
          rcases Nat.lt_succ_iff_lt_or_eq.mp hi with h | rfl
          · exact ⟨h, hci, fun j hj hj2 => hmax j hj (Nat.lt_succ_of_lt hj2)⟩
          · exact absurd hci hn

theorem jsFindIndex_eq_some (p : Area → Bool) (l : List Area) (i : ℕ) :
    jsFindIndex p l = some i ↔
      i < l.length ∧ p (l.getD i defArea) = true ∧
        ∀ j, j < i → p (l.getD j defArea) = false := by
  induction l generalizing i with
  | nil => simp [jsFindIndex]
  | cons a rest ih =>
      by_cases ha : p a = true
      · simp only [jsFindIndex, ha, if_true, Option.some_inj]
        constructor
        · rintro rfl
          exact ⟨Nat.succ_pos _, by simpa using ha, fun j hj => absurd hj (by omega)⟩
        · rintro ⟨hi, hci, hlow⟩
          cases i with
          | zero => rfl
          | succ i => exact absurd ha (by simpa using hlow 0 (Nat.succ_pos i))
      · simp only [jsFindIndex, ha, if_false]
        cases i with
        | zero =>
            simp only [List.getD_cons_zero]
            constructor
            · intro h
              rcases Option.map_eq_some'.mp h with ⟨k, _, hk⟩
              exact absurd hk (by omega)
            · rintro ⟨-, hci, -⟩
              exact absurd hci ha
        | succ i =>
            constructor
            · intro h
              rcases Option.map_eq_some'.mp h with ⟨k, hk, hki⟩
              have hk' := (ih k).mp hk
              have : k = i := by omega
              subst this
              refine ⟨by simpa using Nat.succ_lt_succ hk'.1, by simpa using hk'.2.1,
                fun j hj => ?_⟩
              cases j with
              | zero => simpa using ha
              | succ j => simpa using hk'.2.2 j (by omega)
            · rintro ⟨hi, hci, hlow⟩
              have : jsFindIndex p rest = some i := by
                refine (ih i).mpr ⟨by simpa using Nat.lt_of_succ_lt_succ hi,
                  by simpa using hci, fun j hj => ?_⟩
                simpa using hlow (j + 1) (by omega)
              simp [this]

theorem msSelectOrCreate_eq_select_iff (areas : List Area) (px py : ℚ) (i : ℕ) :
    msSelectOrCreate areas px py = MsDownAction.select i ↔
      msFindClicked areas px py = some i := by
  unfold msSelectOrCreate
  cases h : msFindClicked areas px py with
  | none =>
      constructor
      · intro h2
        exact MsDownAction.noConfusion h2
      · intro h2
        exact Option.noConfusion h2
  | some k =>
      constructor
      · intro h2
        cases h2
        rfl
      · intro h2
        cases h2
        rfl

theorem sasSelectedIdx_handleMouseDown (mobile : Bool) (areas : List Area)
    (px py : ℚ) :
    sasSelectedIdx (sasHandleMouseDown mobile areas px py) =
      jsFindIndex (fun a => sasContains a px py) areas := by
  unfold sasHandleMouseDown
  cases h : jsFindIndex (fun a => sasContains a px py) areas with
  | none => rfl
  | some k =>
      show sasSelectedIdx
        (if sasHandleHit mobile (areas.getD k defArea) px py = true then
          SasDownAction.resize k else SasDownAction.drag k) = some k
      by_cases hh : sasHandleHit mobile (areas.getD k defArea) px py = true
      · rw [if_pos hh]
        rfl
      · rw [if_neg hh]
        rfl

/-- C3 (amended): when a pointer-down hits no resize handle,
`MultiShapeSelector` selects the greatest containing index (regions are
tested in reverse iteration order, first match wins), whereas
`ShapeAreaSelector`'s forward `findIndex` selects the LEAST containing index
(the earliest-added region, bottommost in paint order). -/
theorem pointerDown_selection_order (mobile : Bool) (areas : List Area)
    (selected : Option ℕ) (px py : ℚ) (i : ℕ)
    (hno : ∀ i0, selected = some i0 →
      msGetResizeHandleAt mobile (some i0) px py (areas.getD i0 defArea) = none) :
    (msHandleMouseDown mobile areas selected px py = MsDownAction.select i ↔
      i < areas.length ∧ isPointInShape px py (areas.getD i defArea) = true ∧
        ∀ j, i < j → j < areas.length →
          isPointInShape px py (areas.getD j defArea) = false) ∧
    (sasSelectedIdx (sasHandleMouseDown mobile areas px py) = some i ↔
      i < areas.length ∧ sasContains (areas.getD i defArea) px py = true ∧
        ∀ j, j < i → sasContains (areas.getD j defArea) px py = false) := by
  constructor
  · have hsel : msHandleMouseDown mobile areas selected px py =
        msSelectOrCreate areas px py := by
      cases selected with
      | none => rfl
      | some i0 =>
          have h0 := hno i0 rfl
          show (match msGetResizeHandleAt mobile (some i0) px py
              (areas.getD i0 defArea) with
            | some h => MsDownAction.resize h
            | none => msSelectOrCreate areas px py) = msSelectOrCreate areas px py
          rw [h0]
    rw [hsel, msSelectOrCreate_eq_select_iff]
    unfold msFindClicked
    exact msFindClickedFrom_eq_some areas px py areas.length i
  · rw [sasSelectedIdx_handleMouseDown]
    exact jsFindIndex_eq_some (fun a => sasContains a px py) areas i

/-- Witness for C3's amended theorem at the list `[c3AreaA, c3AreaB]`, probe
point (50, 50), nothing selected (so no handle can be hit). -/
theorem pointerDown_selection_order_witness :
    (∀ i0, (none : Option ℕ) = some i0 →
      msGetResizeHandleAt false (some i0) 50 50
        ([c3AreaA, c3AreaB].getD i0 defArea) = none) ∧
    ((msHandleMouseDown false [c3AreaA, c3AreaB] none 50 50 =
        MsDownAction.select 1 ↔
      1 < [c3AreaA, c3AreaB].length ∧
        isPointInShape 50 50 ([c3AreaA, c3AreaB].getD 1 defArea) = true ∧
        ∀ j, 1 < j → j < [c3AreaA, c3AreaB].length →
          isPointInShape 50 50 ([c3AreaA, c3AreaB].getD j defArea) = false) ∧
     (sasSelectedIdx (sasHandleMouseDown false [c3AreaA, c3AreaB] 50 50) =
        some 1 ↔
      1 < [c3AreaA, c3AreaB].length ∧
        sasContains ([c3AreaA, c3AreaB].getD 1 defArea) 50 50 = true ∧
        ∀ j, j < 1 → sasContains ([c3AreaA, c3AreaB].getD j defArea) 50 50 = false)) :=
  ⟨fun _ h => Option.noConfusion h,
   pointerDown_selection_order false [c3AreaA, c3AreaB] none 50 50 1
     (fun _ h => Option.noConfusion h)⟩

/-- Counterexample to C3 as stated: the probe point (50, 50) lies inside both
regions and hits no handle, yet `ShapeAreaSelector`'s pointer-down starts
dragging region 0 — the LOWEST containing index — although region 1 (the
greatest index, topmost in paint order) also contains the point. -/
theorem pointerDown_selection_order_counterexample :
    sasHandleMouseDown false [c3AreaA, c3AreaB] 50 50 = SasDownAction.drag 0 ∧
    sasContains c3AreaB 50 50 = true ∧ sasContains c3AreaA 50 50 = true := by
  refine ⟨?_, ?_, ?_⟩
  · have h1 : jsFindIndex (fun a => sasContains a 50 50) [c3AreaA, c3AreaB] =
        some 0 := by
      norm_num [jsFindIndex, sasContains, sqrtLe, c3AreaA]
    have h2 : sasHandleHit false ([c3AreaA, c3AreaB].getD 0 defArea) 50 50 = false := by
      norm_num [sasHandleHit, sqrtLe, sasHitRadius, cos45, c3AreaA]
    unfold sasHandleMouseDown
    rw [h1]
    show (if sasHandleHit false ([c3AreaA, c3AreaB].getD 0 defArea) 50 50 = true
        then SasDownAction.resize 0 else SasDownAction.drag 0) = SasDownAction.drag 0
    rw [h2]
    simp
  · norm_num [sasContains, sqrtLe, c3AreaB]
  · norm_num [sasContains, sqrtLe, c3AreaA]

theorem listGetD_set_self {α : Type} (l : List α) (i : ℕ) (a d : α)
    (h : i < l.length) : (l.set i a).getD i d = a := by
  induction l generalizing i with
  | nil => simp at h
  | cons b t ih =>
      cases i with
      | zero => rfl
      | succ i => exact ih i (by simpa using h)

theorem listGetD_append_self {α : Type} (l : List α) (a d : α) :
    (l ++ [a]).getD l.length d = a := by
  induction l with
  | nil => rfl
  | cons b t ih => exact ih

theorem listGetD_append_left {α : Type} (l t : List α) (r : ℕ) (d : α)
    (h : r < l.length) : (l ++ t).getD r d = l.getD r d := by
  induction l generalizing r with
  | nil => simp at h
  | cons b tl ih =>
      cases r with
      | zero => rfl
      | succ r => simpa using ih r (by simpa using h)

/-- C4 (amended): `ShapeAreaSelector` resize clamps the circle radius and
both ellipse radii to `[minSize, maxSize]` (with `maxSize` half the smaller
canvas dimension) but clamps rectangle width and height to
`[minSize, maxSize * 2]` — the full smaller dimension; `MultiShapeSelector`
resize enforces only lower bounds (10 for circle radius and ellipse radii,
20 for the rectangle dimensions) on the fields it updates, with no maximum
clamp at all. -/
theorem resize_size_bounds (minSize maxSize distance dx dy : ℚ)
    (handleS : String) (cx cy w h rx ry mx my dist : ℚ)
    (hcm : minSize ≤ maxSize) (hrm : minSize ≤ maxSize * 2) :
    (minSize ≤ sasResizeCircleRadius minSize maxSize distance ∧
     sasResizeCircleRadius minSize maxSize distance ≤ maxSize) ∧
    (minSize ≤ (sasResizeRectDims minSize maxSize dx dy).1 ∧
     (sasResizeRectDims minSize maxSize dx dy).1 ≤ maxSize * 2 ∧
     minSize ≤ (sasResizeRectDims minSize maxSize dx dy).2 ∧
     (sasResizeRectDims minSize maxSize dx dy).2 ≤ maxSize * 2) ∧
    (minSize ≤ (sasResizeEllipseRadii minSize maxSize dx dy).1 ∧
     (sasResizeEllipseRadii minSize maxSize dx dy).1 ≤ maxSize ∧
     minSize ≤ (sasResizeEllipseRadii minSize maxSize dx dy).2 ∧
     (sasResizeEllipseRadii minSize maxSize dx dy).2 ≤ maxSize) ∧
    (10 ≤ msResizeCircleRadius handleS dx dy dist) ∧
    (((msResizeRectDims cx cy w h handleS mx my).1 = w ∨
       20 ≤ (msResizeRectDims cx cy w h handleS mx my).1) ∧
     ((msResizeRectDims cx cy w h handleS mx my).2 = h ∨
       20 ≤ (msResizeRectDims cx cy w h handleS mx my).2)) ∧
    (((msResizeEllipseRadii cx cy rx ry handleS mx my).1 = rx ∨
       10 ≤ (msResizeEllipseRadii cx cy rx ry handleS mx my).1) ∧
     ((msResizeEllipseRadii cx cy rx ry handleS mx my).2 = ry ∨
       10 ≤ (msResizeEllipseRadii cx cy rx ry handleS mx my).2)) := by
  refine ⟨⟨le_max_left _ _, max_le hcm (min_le_left _ _)⟩,
    ⟨le_max_left _ _, max_le hrm (min_le_left _ _),
     le_max_left _ _, max_le hrm (min_le_left _ _)⟩,
    ⟨le_max_left _ _, max_le hcm (min_le_left _ _),
     le_max_left _ _, max_le hcm (min_le_left _ _)⟩,
    ?_, ?_, ?_⟩
  · unfold msResizeCircleRadius
    split_ifs <;> exact le_max_left _ _
  · unfold msResizeRectDims
    split_ifs <;>
      exact ⟨by first | exact Or.inl rfl | exact Or.inr (le_max_left _ _),
             by first | exact Or.inl rfl | exact Or.inr (le_max_left _ _)⟩
  · unfold msResizeEllipseRadii
    split_ifs <;>
      exact ⟨by first | exact Or.inl rfl | exact Or.inr (le_max_left _ _),
             by first | exact Or.inl rfl | exact Or.inr (le_max_left _ _)⟩

/-- Witness for C4's amended theorem at `minSize = 10`, `maxSize = 50`
(a 100×100 canvas) and assorted pointer data. -/
theorem resize_size_bounds_witness :
    (10 : ℚ) ≤ 50 ∧ (10 : ℚ) ≤ 50 * 2 ∧
    ((10 ≤ sasResizeCircleRadius 10 50 70 ∧
      sasResizeCircleRadius 10 50 70 ≤ 50) ∧
     (10 ≤ (sasResizeRectDims 10 50 100 5).1 ∧
      (sasResizeRectDims 10 50 100 5).1 ≤ 50 * 2 ∧
      10 ≤ (sasResizeRectDims 10 50 100 5).2 ∧
      (sasResizeRectDims 10 50 100 5).2 ≤ 50 * 2) ∧
     (10 ≤ (sasResizeEllipseRadii 10 50 100 5).1 ∧
      (sasResizeEllipseRadii 10 50 100 5).1 ≤ 50 ∧
      10 ≤ (sasResizeEllipseRadii 10 50 100 5).2 ∧
      (sasResizeEllipseRadii 10 50 100 5).2 ≤ 50) ∧
     (10 ≤ msResizeCircleRadius hRight 100 5 0) ∧
     (((msResizeRectDims 0 0 30 30 hRight 100 5).1 = 30 ∨
        20 ≤ (msResizeRectDims 0 0 30 30 hRight 100 5).1) ∧
      ((msResizeRectDims 0 0 30 30 hRight 100 5).2 = 30 ∨
        20 ≤ (msResizeRectDims 0 0 30 30 hRight 100 5).2)) ∧
     (((msResizeEllipseRadii 0 0 30 30 hRight 100 5).1 = 30 ∨
        10 ≤ (msResizeEllipseRadii 0 0 30 30 hRight 100 5).1) ∧
      ((msResizeEllipseRadii 0 0 30 30 hRight 100 5).2 = 30 ∨
        10 ≤ (msResizeEllipseRadii 0 0 30 30 hRight 100 5).2))) :=
  ⟨by norm_num, by norm_num,
   resize_size_bounds 10 50 70 100 5 hRight 0 0 30 30 30 30 100 5 0
     (by norm_num) (by norm_num)⟩

/-- Counterexample to C4 as stated: dragging the right handle of a circle to
a pointer 1000px from the centre yields radius 1000 in `MultiShapeSelector`,
far above half the smaller dimension (50) of a 100×100 raster — there is no
maximum clamp. -/
theorem resize_size_bounds_counterexample :
    msResizeCircleRadius hRight 1000 0 1000 = 1000 ∧
    ¬ msResizeCircleRadius hRight 1000 0 1000 ≤ min (100 : ℚ) 100 / 2 := by
  have hinc : jsIncludes hRight hRight = true := by decide
  have hval : msResizeCircleRadius hRight 1000 0 1000 = 1000 := by
    unfold msResizeCircleRadius
    rw [if_pos hinc]
    norm_num
  exact ⟨hval, by rw [hval]; norm_num⟩

/-- C5 (amended): `ShapeAreaSelector` drag moves clamp the centre so the
region's extent stays inside `[0, canvasW] × [0, canvasH]` (half-size margin
per axis, whenever the region fits at all); `MultiShapeSelector` drag moves
instead store a fresh record whose centre is the raw pointer position, with
no boundary clamping, so the extent can leave the raster. -/
theorem translate_clamp (a : Area) (canvasW canvasH dx dy : ℚ)
    (hp : Heap) (refs : List ℕ) (idx : ℕ) (mx my : ℚ)
    (hx : halfSizeX a.shape * 2 ≤ canvasW) (hy : halfSizeY a.shape * 2 ≤ canvasH)
    (hidx : idx < refs.length) :
    (0 ≤ (sasDragArea a canvasW canvasH dx dy).x - halfSizeX a.shape ∧
     (sasDragArea a canvasW canvasH dx dy).x + halfSizeX a.shape ≤ canvasW ∧
     0 ≤ (sasDragArea a canvasW canvasH dx dy).y - halfSizeY a.shape ∧
     (sasDragArea a canvasW canvasH dx dy).y + halfSizeY a.shape ≤ canvasH) ∧
    (msMouseMoveDragging hp refs idx mx my).1.get
        ((msMouseMoveDragging hp refs idx mx my).2.getD idx 0) =
      { hp.get (refs.getD idx 0) with x := mx, y := my } := by
  constructor
  · have hbx : ∀ n : ℚ, halfSizeX a.shape ≤ sasConstrain (halfSizeX a.shape) canvasW n ∧
        sasConstrain (halfSizeX a.shape) canvasW n ≤ canvasW - halfSizeX a.shape := by
      intro n
      exact ⟨le_max_left _ _, max_le (by linarith) (min_le_left _ _)⟩
    have hby : ∀ n : ℚ, halfSizeY a.shape ≤ sasConstrain (halfSizeY a.shape) canvasH n ∧
        sasConstrain (halfSizeY a.shape) canvasH n ≤ canvasH - halfSizeY a.shape := by
      intro n
      exact ⟨le_max_left _ _, max_le (by linarith) (min_le_left _ _)⟩
    have h1 := hbx (a.x + dx)
    have h2 := hby (a.y + dy)
    unfold sasDragArea
    constructor
    · simpa using by linarith [h1.1]
    · refine ⟨by simpa using by linarith [h1.2], ?_, ?_⟩
      · simpa using by linarith [h2.1]
      · simpa using by linarith [h2.2]
  · unfold msMouseMoveDragging Heap.alloc Heap.get
    rw [listGetD_set_self refs idx hp.recs.length 0 hidx]
    exact listGetD_append_self hp.recs _ defArea

/-- Witness for C5's amended theorem: `c5Area` fits in a 100×100 canvas, and
a one-element heap dragged to (200, 200). -/
theorem translate_clamp_witness :
    (halfSizeX c5Area.shape * 2 ≤ 100 ∧ halfSizeY c5Area.shape * 2 ≤ 100 ∧
      0 < [(0 : ℕ)].length) ∧
    ((0 ≤ (sasDragArea c5Area 100 100 500 500).x - halfSizeX c5Area.shape ∧
      (sasDragArea c5Area 100 100 500 500).x + halfSizeX c5Area.shape ≤ 100 ∧
      0 ≤ (sasDragArea c5Area 100 100 500 500).y - halfSizeY c5Area.shape ∧
      (sasDragArea c5Area 100 100 500 500).y + halfSizeY c5Area.shape ≤ 100) ∧
     (msMouseMoveDragging ⟨[c5Area]⟩ [0] 0 200 200).1.get
         ((msMouseMoveDragging ⟨[c5Area]⟩ [0] 0 200 200).2.getD 0 0) =
       { (⟨[c5Area]⟩ : Heap).get ([(0 : ℕ)].getD 0 0) with x := 200, y := 200 }) :=
  ⟨⟨by norm_num [c5Area, halfSizeX], by norm_num [c5Area, halfSizeY], by norm_num⟩,
   translate_clamp c5Area 100 100 500 500 ⟨[c5Area]⟩ [0] 0 200 200
     (by norm_num [c5Area, halfSizeX]) (by norm_num [c5Area, halfSizeY])
     (by norm_num)⟩

/-- Counterexample to C5 as stated: dragging `c5Area` (radius 30) to pointer
position (0, 0) in `MultiShapeSelector` stores centre (0, 0) unclamped, so
the region's extent starts at -30, outside the 100×100 raster. -/
theorem translate_clamp_counterexample :
    ((msMouseMoveDragging ⟨[c5Area]⟩ [0] 0 0 0).1.get
        ((msMouseMoveDragging ⟨[c5Area]⟩ [0] 0 0 0).2.getD 0 0)).x -
      halfSizeX ((msMouseMoveDragging ⟨[c5Area]⟩ [0] 0 0 0).1.get
        ((msMouseMoveDragging ⟨[c5Area]⟩ [0] 0 0 0).2.getD 0 0)).shape < 0 := by
  have hrec : (msMouseMoveDragging ⟨[c5Area]⟩ [0] 0 0 0).1.get
      ((msMouseMoveDragging ⟨[c5Area]⟩ [0] 0 0 0).2.getD 0 0) =
      { c5Area with x := 0, y := 0 } := by
    unfold msMouseMoveDragging Heap.alloc Heap.get
    rw [listGetD_set_self [0] 0 _ 0 (by norm_num)]
    exact listGetD_append_self _ _ defArea
  rw [hrec]
  norm_num [c5Area, halfSizeX]

/-- C6 (amended): a dragging pointer-move allocates a fresh record and
leaves every record of the input set unchanged (the reference list is
updated to the fresh cell); a resizing pointer-move instead keeps the very
same reference list and mutates the referenced record in place, so the
record shared with the input set changes. -/
theorem mouseMove_mutation (hp : Heap) (refs : List ℕ) (idx : ℕ)
    (handleS : String) (mx my dist : ℚ) (r0 : ℕ)
    (hr0 : r0 < hp.recs.length) (hidx : idx < refs.length)
    (href : refs.getD idx 0 < hp.recs.length) :
    ((msMouseMoveDragging hp refs idx mx my).1.recs.getD r0 defArea =
      hp.recs.getD r0 defArea) ∧
    ((msMouseMoveDragging hp refs idx mx my).2.getD idx 0 = hp.recs.length) ∧
    ((msMouseMoveResizing hp refs idx handleS mx my dist).2 = refs) ∧
    ((msMouseMoveResizing hp refs idx handleS mx my dist).1.get
        (refs.getD idx 0) =
      msResizeArea (hp.get (refs.getD idx 0)) handleS mx my dist) := by
  refine ⟨?_, ?_, rfl, ?_⟩
  · exact listGetD_append_left hp.recs _ r0 defArea hr0
  · exact listGetD_set_self refs idx hp.recs.length 0 hidx
  · unfold msMouseMoveResizing Heap.setRec Heap.get
    exact listGetD_set_self hp.recs _ _ defArea href

/-- Witness for C6's amended theorem on a one-record heap resized through
the right handle. -/
theorem mouseMove_mutation_witness :
    (0 < (Heap.mk [c6Area]).recs.length ∧ 0 < [(0 : ℕ)].length ∧
      [(0 : ℕ)].getD 0 0 < (Heap.mk [c6Area]).recs.length) ∧
    (((msMouseMoveDragging ⟨[c6Area]⟩ [0] 0 5 5).1.recs.getD 0 defArea =
        (Heap.mk [c6Area]).recs.getD 0 defArea) ∧
     ((msMouseMoveDragging ⟨[c6Area]⟩ [0] 0 5 5).2.getD 0 0 =
        (Heap.mk [c6Area]).recs.length) ∧
     ((msMouseMoveResizing ⟨[c6Area]⟩ [0] 0 hRight 50 0 50).2 = [0]) ∧
     ((msMouseMoveResizing ⟨[c6Area]⟩ [0] 0 hRight 50 0 50).1.get
         ([(0 : ℕ)].getD 0 0) =
       msResizeArea ((Heap.mk [c6Area]).get ([(0 : ℕ)].getD 0 0)) hRight 50 0 50)) :=
  ⟨⟨by norm_num, by norm_num, by norm_num⟩,
   mouseMove_mutation ⟨[c6Area]⟩ [0] 0 hRight 50 0 50 0
     (by norm_num) (by norm_num) (by norm_num)⟩

/-- Counterexample to C6 as stated: the resizing move mutates the record in
cell 0 — the record held by the input selection set — from radius 30 to
radius 50, so the input set does not survive a pointer-move unchanged. -/
theorem mouseMove_mutation_counterexample :
    (msMouseMoveResizing ⟨[c6Area]⟩ [0] 0 hRight 50 0 50).1.get 0 ≠
      (Heap.mk [c6Area]).get 0 := by
  have hinc : jsIncludes hRight hRight = true := by decide
  have hrad : msResizeCircleRadius hRight (50 - c6Area.x) (0 - c6Area.y) 50 = 50 := by
    unfold msResizeCircleRadius
    rw [if_pos hinc]
    rw [show (50 - c6Area.x : ℚ) = 50 from by norm_num [c6Area]]
    rw [abs_of_nonneg (by norm_num : (0 : ℚ) ≤ 50)]
    exact max_eq_right (by norm_num)
  have hshape : ((msMouseMoveResizing ⟨[c6Area]⟩ [0] 0 hRight 50 0 50).1.get 0).shape =
      Shape.circle 50 := by
    show Shape.circle (msResizeCircleRadius hRight (50 - c6Area.x) (0 - c6Area.y) 50) =
      Shape.circle 50
    rw [hrad]
  intro hcontra
  have hs := congrArg Area.shape hcontra
  rw [hshape] at hs
  have h50 : (50 : ℚ) = 30 := Shape.circle.inj hs
  norm_num at h50

/-- C8: compositing an empty selection set is the identity, in blur mode and
in hide mode alike (for every context state, fill colour and feather flag):
both pipelines return the input tensor unchanged. -/
theorem composite_empty_identity (ctxOk : Bool) (imageW imageH : ℚ) (h w : ℕ)
    (img : Image) (color : Fin 3 → ℝ) (feather : Bool) :
    applyCircularBlurs ctxOk imageW imageH h w img [] = img ∧
    hideCircularAreas ctxOk imageW imageH w h color feather img [] = img := by
  constructor
  · unfold applyCircularBlurs
    simp
  · unfold hideCircularAreas
    simp

/-- A blend step with the all-ones fallback mask keeps the running result. -/
theorem blendStep_ctxFalse (imageW imageH : ℚ) (w h : ℕ)
    (result blurred : Image) (a : CircleArea) :
    blendStep false imageW imageH w h result blurred a = result := by
  funext y x ch
  unfold blendStep
  simp

theorem foldl_blendStep_ctxFalse (imageW imageH : ℚ) (w h : ℕ)
    (l : List (CircleArea × Image)) (img : Image) :
    l.foldl (fun result ab => blendStep false imageW imageH w h result ab.2 ab.1)
      img = img := by
  induction l generalizing img with
  | nil => rfl
  | cons ab rest ih => rw [List.foldl_cons, blendStep_ctxFalse, ih]

/-- C10: when `canvas.getContext('2d')` returns null, neither compositing
path fails: hide mode returns the input image unchanged, and blur mode's
per-area masks fall back to all-ones, which makes every blend keep the
original — so the caller silently receives the input with no privacy
transform applied. -/
theorem composite_nullCtx_noop (imageW imageH : ℚ) (h w : ℕ) (img : Image)
    (areas : List CircleArea) (color : Fin 3 → ℝ) (feather : Bool) :
    hideCircularAreas false imageW imageH w h color feather img areas = img ∧
    applyCircularBlurs false imageW imageH h w img areas = img := by
  constructor
  · unfold hideCircularAreas
    by_cases hempty : areas = [] <;> simp [hempty]
  · unfold applyCircularBlurs
    by_cases hempty : areas = [] <;>
      simp [hempty, foldl_blendStep_ctxFalse]

/-- C9 (amended): the hide-mode circle and ellipse feather widths match the
spec's `max(3, 0.1 × characteristic-size)`; the hide-mode rectangle uses
`min(width, height)` — twice the spec's characteristic size — as its size;
and all blur-mode masks use 5, not 3, as the minimum band width. -/
theorem feather_width_amended (r w h rx ry : ℚ) :
    hideFeatherCircle r = specFeatherWidth (Shape.circle r) ∧
    hideFeatherEllipse rx ry = specFeatherWidth (Shape.ellipse rx ry) ∧
    hideFeatherRect w h = max 3 (0.1 * (2 * charSize (Shape.rect w h))) ∧
    blurFeatherCircle r = max 5 (0.1 * charSize (Shape.circle r)) ∧
    blurFeatherEllipse rx ry = max 5 (0.1 * charSize (Shape.ellipse rx ry)) ∧
    blurFeatherRect w h = max 5 (0.1 * (2 * charSize (Shape.rect w h))) := by
  unfold hideFeatherCircle hideFeatherEllipse hideFeatherRect blurFeatherCircle
    blurFeatherEllipse blurFeatherRect specFeatherWidth charSize
  refine ⟨by rw [mul_comm], by rw [mul_comm], ?_, by rw [mul_comm], by rw [mul_comm], ?_⟩
  · rw [show (0.1 : ℚ) * (2 * (min w h / 2)) = min w h * 0.1 by ring]
  · rw [show (0.1 : ℚ) * (2 * (min w h / 2)) = min w h * 0.1 by ring]

/-- Counterexample to C9 as stated: for a circle of radius 40 the blur mask's
band width is `max(5, 4) = 5`, not the claimed `max(3, 4) = 4`; and for a
100×100 rectangle the hide-mode band width is `max(3, 10) = 10`, not the
claimed `max(3, 5) = 5` (the code does not halve `min(width, height)`). -/
theorem feather_width_counterexample :
    blurFeatherCircle 40 ≠ specFeatherWidth (Shape.circle 40) ∧
    hideFeatherRect 100 100 ≠ specFeatherWidth (Shape.rect 100 100) := by
  constructor
  · unfold blurFeatherCircle specFeatherWidth charSize
    norm_num
  · unfold hideFeatherRect specFeatherWidth charSize
    norm_num

/-! ### C1: the blur source and kernel shape -/

theorem extImage_one_one (im : Image) (y x : ℤ) (ch : Fin 3) :
    extImage 1 1 im y x ch = if y = 0 ∧ x = 0 then im 0 0 ch else 0 := by
  unfold extImage
  by_cases hyx : y = 0 ∧ x = 0
  · rcases hyx with ⟨rfl, rfl⟩
    simp
  · rw [if_neg hyx, if_neg]
    intro hcon
    exact hyx ⟨by omega, by omega⟩

theorem depthwiseConv2d_one_one (k : ℕ) (K : ℕ → ℕ → ℝ) (im : Image)
    (ch : Fin 3) (hk : (k - 1) / 2 < k) :
    depthwiseConv2d 1 1 k K im 0 0 ch =
      K ((k - 1) / 2) ((k - 1) / 2) * im 0 0 ch := by
  unfold depthwiseConv2d
  have hterm : ∀ i j : ℕ,
      K i j * extImage 1 1 im (((0 : ℕ) : ℤ) + i - ((k - 1) / 2 : ℕ))
        (((0 : ℕ) : ℤ) + j - ((k - 1) / 2 : ℕ)) ch =
      if i = (k - 1) / 2 ∧ j = (k - 1) / 2 then K i j * im 0 0 ch else 0 := by
    intro i j
    rw [extImage_one_one]
    by_cases hij : i = (k - 1) / 2 ∧ j = (k - 1) / 2
    · rcases hij with ⟨rfl, rfl⟩
      simp
    · rw [if_neg, if_neg hij, mul_zero]
      intro hcon
      exact hij ⟨by omega, by omega⟩
  calc (∑ i ∈ Finset.range k, ∑ j ∈ Finset.range k,
          K i j * extImage 1 1 im (((0 : ℕ) : ℤ) + i - ((k - 1) / 2 : ℕ))
            (((0 : ℕ) : ℤ) + j - ((k - 1) / 2 : ℕ)) ch)
      = ∑ i ∈ Finset.range k, ∑ j ∈ Finset.range k,
          (if i = (k - 1) / 2 ∧ j = (k - 1) / 2 then K i j * im 0 0 ch else 0) := by
        refine Finset.sum_congr rfl fun i _ => Finset.sum_congr rfl fun j _ => hterm i j
    _ = K ((k - 1) / 2) ((k - 1) / 2) * im 0 0 ch := by
        rw [Finset.sum_eq_single ((k - 1) / 2)]
        · rw [Finset.sum_eq_single ((k - 1) / 2)]
          · simp
          · intro j _ hj
            rw [if_neg]
            intro hcon
            exact hj hcon.2
          · intro hc
            exact absurd (Finset.mem_range.mpr hk) hc
        · intro i _ hi
          refine Finset.sum_eq_zero fun j _ => ?_
          rw [if_neg]
          intro hcon
          exact hi hcon.1
        · intro hc
          exact absurd (Finset.mem_range.mpr hk) hc

theorem conv1dRow_one_one (k : ℕ) (K1 : ℕ → ℝ) (im : Image) (ch : Fin 3)
    (hk : (k - 1) / 2 < k) :
    conv1dRow 1 1 k K1 im 0 0 ch = K1 ((k - 1) / 2) * im 0 0 ch := by
  unfold conv1dRow
  have hterm : ∀ j : ℕ,
      K1 j * extImage 1 1 im ((0 : ℕ) : ℤ) (((0 : ℕ) : ℤ) + j - ((k - 1) / 2 : ℕ)) ch =
      if j = (k - 1) / 2 then K1 j * im 0 0 ch else 0 := by
    intro j
    rw [extImage_one_one]
    by_cases hj : j = (k - 1) / 2
    · subst hj
      simp
    · rw [if_neg, if_neg hj, mul_zero]
      intro hcon
      exact hj (by omega)
  rw [Finset.sum_congr rfl fun j _ => hterm j, Finset.sum_eq_single ((k - 1) / 2)]
  · simp
  · intro j _ hj
    exact if_neg hj
  · intro hc
    exact absurd (Finset.mem_range.mpr hk) hc

theorem conv1dCol_one_one (k : ℕ) (K1 : ℕ → ℝ) (im : Image) (ch : Fin 3)
    (hk : (k - 1) / 2 < k) :
    conv1dCol 1 1 k K1 im 0 0 ch = K1 ((k - 1) / 2) * im 0 0 ch := by
  unfold conv1dCol
  have hterm : ∀ i : ℕ,
      K1 i * extImage 1 1 im (((0 : ℕ) : ℤ) + i - ((k - 1) / 2 : ℕ)) ((0 : ℕ) : ℤ) ch =
      if i = (k - 1) / 2 then K1 i * im 0 0 ch else 0 := by
    intro i
    rw [extImage_one_one]
    by_cases hi : i = (k - 1) / 2
    · subst hi
      simp
    · rw [if_neg, if_neg hi, mul_zero]
      intro hcon
      exact hi (by omega)
  rw [Finset.sum_congr rfl fun i _ => hterm i, Finset.sum_eq_single ((k - 1) / 2)]
  · simp
  · intro i _ hi
    exact if_neg hi
  · intro hc
    exact absurd (Finset.mem_range.mpr hk) hc

theorem kernelSizeOf_sigma_one : kernelSizeOf 1 = 3 := by
  unfold kernelSizeOf
  rw [show ((1 : ℚ) * 3) = ((3 : ℤ) : ℚ) by norm_num, Int.floor_intCast]
  rfl

theorem kernelSizeOf_sigma_three : kernelSizeOf 3 = 9 := by
  unfold kernelSizeOf
  rw [show ((3 : ℚ) * 3) = ((9 : ℤ) : ℚ) by norm_num, Int.floor_intCast]
  rfl

theorem specKernelSize_sigma_one : specKernelSize 1 = 3 := by
  unfold specKernelSize
  rw [show ((1 : ℚ) * 3) = ((3 : ℤ) : ℚ) by norm_num, Int.floor_intCast]
  rfl

theorem specKernelSize_sigma_three : specKernelSize 3 = 9 := by
  unfold specKernelSize
  rw [show ((3 : ℚ) * 3) = ((9 : ℤ) : ℚ) by norm_num, Int.floor_intCast]
  rfl

theorem gaussSum_pos (sigma : ℚ) (k : ℕ) (hk : 0 < k) : 0 < gaussSum sigma k := by
  unfold gaussSum
  refine Finset.sum_pos (fun i _ => Real.exp_pos _) ?_
  exact ⟨0, Finset.mem_range.mpr hk⟩

theorem gaussRaw_arg (sigma : ℚ) (k : ℕ) (i : ℕ) (q : ℝ)
    (hq : -(((i : ℝ) - ((k : ℝ) - 1) / 2) * ((i : ℝ) - ((k : ℝ) - 1) / 2)) /
      (2 * (sigma : ℝ) * (sigma : ℝ)) = q) :
    gaussRaw sigma k i = Real.exp q := by
  unfold gaussRaw
  rw [hq]

theorem gaussSum_one_lt_gaussSum_three : gaussSum 1 3 < gaussSum 3 9 := by
  have h10 : gaussRaw 1 3 0 = Real.exp (-(1 / 2)) := by
    refine gaussRaw_arg 1 3 0 _ ?_
    push_cast
    norm_num
  have h11 : gaussRaw 1 3 1 = Real.exp 0 := by
    refine gaussRaw_arg 1 3 1 _ ?_
    push_cast
    norm_num
  have h12 : gaussRaw 1 3 2 = Real.exp (-(1 / 2)) := by
    refine gaussRaw_arg 1 3 2 _ ?_
    push_cast
    norm_num
  have h90 : gaussRaw 3 9 0 = Real.exp (-(8 / 9)) := by
    refine gaussRaw_arg 3 9 0 _ ?_
    push_cast
    norm_num
  have h91 : gaussRaw 3 9 1 = Real.exp (-(1 / 2)) := by
    refine gaussRaw_arg 3 9 1 _ ?_
    push_cast
    norm_num
  have h92 : gaussRaw 3 9 2 = Real.exp (-(2 / 9)) := by
    refine gaussRaw_arg 3 9 2 _ ?_
    push_cast
    norm_num
  have h93 : gaussRaw 3 9 3 = Real.exp (-(1 / 18)) := by
    refine gaussRaw_arg 3 9 3 _ ?_
    push_cast
    norm_num
  have h94 : gaussRaw 3 9 4 = Real.exp 0 := by
    refine gaussRaw_arg 3 9 4 _ ?_
    push_cast
    norm_num
  have h95 : gaussRaw 3 9 5 = Real.exp (-(1 / 18)) := by
    refine gaussRaw_arg 3 9 5 _ ?_
    push_cast
    norm_num
  have h96 : gaussRaw 3 9 6 = Real.exp (-(2 / 9)) := by
    refine gaussRaw_arg 3 9 6 _ ?_
    push_cast
    norm_num
  have h97 : gaussRaw 3 9 7 = Real.exp (-(1 / 2)) := by
    refine gaussRaw_arg 3 9 7 _ ?_
    push_cast
    norm_num
  have h98 : gaussRaw 3 9 8 = Real.exp (-(8 / 9)) := by
    refine gaussRaw_arg 3 9 8 _ ?_
    push_cast
    norm_num
  have hS1 : gaussSum 1 3 = gaussRaw 1 3 0 + gaussRaw 1 3 1 + gaussRaw 1 3 2 := by
    unfold gaussSum
    rw [Finset.sum_range_succ, Finset.sum_range_succ, Finset.sum_range_one]
  have hS2 : gaussSum 3 9 = gaussRaw 3 9 0 + gaussRaw 3 9 1 + gaussRaw 3 9 2 +
      gaussRaw 3 9 3 + gaussRaw 3 9 4 + gaussRaw 3 9 5 + gaussRaw 3 9 6 +
      gaussRaw 3 9 7 + gaussRaw 3 9 8 := by
    unfold gaussSum
    rw [Finset.sum_range_succ, Finset.sum_range_succ, Finset.sum_range_succ,
      Finset.sum_range_succ, Finset.sum_range_succ, Finset.sum_range_succ,
      Finset.sum_range_succ, Finset.sum_range_succ, Finset.sum_range_one]
  rw [hS1, hS2, h10, h11, h12, h90, h91, h92, h93, h94, h95, h96, h97, h98]
  have p1 := Real.exp_pos (-(8 / 9) : ℝ)
  have p2 := Real.exp_pos (-(2 / 9) : ℝ)
  have p3 := Real.exp_pos (-(1 / 18) : ℝ)
  linarith

/-- The central raw tap is `exp 0 = 1` (σ = 1, kernel size 3). -/
theorem gaussRaw_center_sigma_one : gaussRaw 1 3 1 = 1 := by
  rw [gaussRaw_arg 1 3 1 0 (by push_cast; norm_num)]
  exact Real.exp_zero

/-- The central raw tap is `exp 0 = 1` (σ = 3, kernel size 9). -/
theorem gaussRaw_center_sigma_three : gaussRaw 3 9 4 = 1 := by
  rw [gaussRaw_arg 3 9 4 0 (by push_cast; norm_num)]
  exact Real.exp_zero

/-- C1 (amended): the blur-mode compositor equals the pipeline in which each
region's transform is the code's blur — two depthwise passes of the full 2D
outer-product kernel, with kernel size `(max(3, floor(3σ))) | 1` — applied
to the ORIGINAL input image (never to the partially composited result),
blended region by region in paint order through the code's masks. -/
theorem applyCircularBlurs_blursOriginal (ctxOk : Bool) (imageW imageH : ℚ)
    (h w : ℕ) (img : Image) (areas : List CircleArea) :
    applyCircularBlurs ctxOk imageW imageH h w img areas =
      amendedC1Composite ctxOk imageW imageH h w img areas := by
  unfold applyCircularBlurs amendedC1Composite
  by_cases hempty : areas = []
  · rw [if_pos hempty, if_pos hempty]
  · rw [if_neg hempty, if_neg hempty, List.foldl_map]

theorem c1_maskA : areaMaskValue 1 1 1 1 c1AreaA 0 0 = 0 := by
  unfold areaMaskValue blurFeatherCircle c1AreaA
  norm_num [Real.sqrt_zero]

theorem c1_maskB : areaMaskValue 1 1 1 1 c1AreaB 0 0 = 0 := by
  unfold areaMaskValue blurFeatherCircle c1AreaB
  norm_num [Real.sqrt_zero]

theorem c1_blendA (result blurred : Image) (ch : Fin 3) :
    blendStep true 1 1 1 1 result blurred c1AreaA 0 0 ch = blurred 0 0 ch := by
  unfold blendStep
  rw [if_pos rfl, c1_maskA]
  ring

theorem c1_blendB (result blurred : Image) (ch : Fin 3) :
    blendStep true 1 1 1 1 result blurred c1AreaB 0 0 ch = blurred 0 0 ch := by
  unfold blendStep
  rw [if_pos rfl, c1_maskB]
  ring

theorem c1_code_value (ch : Fin 3) :
    applyCircularBlurs true 1 1 1 1 c1Img [c1AreaA, c1AreaB] 0 0 ch =
      gauss1 3 9 4 * gauss1 3 9 4 * (gauss1 3 9 4 * gauss1 3 9 4) := by
  unfold applyCircularBlurs
  rw [if_neg (by simp)]
  simp only [List.map_cons, List.map_nil, List.foldl_cons, List.foldl_nil]
  rw [c1_blendB]
  have hsig : sigmaOf c1AreaB.blurIntensity = 3 := by
    unfold sigmaOf c1AreaB
    norm_num
  rw [hsig]
  unfold codeBlurOne
  rw [kernelSizeOf_sigma_three]
  rw [depthwiseConv2d_one_one 9 _ _ ch (by norm_num)]
  rw [depthwiseConv2d_one_one 9 _ _ ch (by norm_num)]
  show kernel2d 3 9 4 4 * (kernel2d 3 9 4 4 * c1Img 0 0 ch) = _
  unfold kernel2d c1Img
  ring

theorem c1_claim_value (ch : Fin 3) :
    claimC1Composite true 1 1 1 1 c1Img [c1AreaA, c1AreaB] 0 0 ch =
      gauss1 3 9 4 * (gauss1 3 9 4 *
        (gauss1 1 3 1 * (gauss1 1 3 1 * 1))) := by
  unfold claimC1Composite
  rw [if_neg (by simp)]
  simp only [List.foldl_cons, List.foldl_nil]
  rw [c1_blendB]
  have hsigB : sigmaOf c1AreaB.blurIntensity = 3 := by
    unfold sigmaOf c1AreaB
    norm_num
  have hsigA : sigmaOf c1AreaA.blurIntensity = 1 := by
    unfold sigmaOf c1AreaA
    norm_num
  rw [hsigB, hsigA]
  unfold sepGaussBlur
  rw [specKernelSize_sigma_three, specKernelSize_sigma_one]
  rw [conv1dCol_one_one 9 _ _ ch (by norm_num)]
  rw [conv1dRow_one_one 9 _ _ ch (by norm_num)]
  show gauss1 3 9 ((9 - 1) / 2) * (gauss1 3 9 ((9 - 1) / 2) *
      blendStep true 1 1 1 1 c1Img
        (conv1dCol 1 1 3 (gauss1 1 3) (conv1dRow 1 1 3 (gauss1 1 3) c1Img))
        c1AreaA 0 0 ch) = _
  rw [c1_blendA]
  rw [conv1dCol_one_one 3 _ _ ch (by norm_num)]
  rw [conv1dRow_one_one 3 _ _ ch (by norm_num)]
  show gauss1 3 9 ((9 - 1) / 2) * (gauss1 3 9 ((9 - 1) / 2) *
      (gauss1 1 3 ((3 - 1) / 2) * (gauss1 1 3 ((3 - 1) / 2) * c1Img 0 0 ch))) = _
  unfold c1Img
  norm_num

/-- Counterexample to C1 as stated: on a 1×1 all-ones image with two
full-cover regions of intensities 10 and 30, the code's output pixel is
`b⁴` (b the central normalized weight for σ = 3 — the original image is
blurred for each region, with the 2D kernel applied twice) while the
claimed pipeline yields `b²a²` (a the central weight for σ = 1, from
blurring the current result); `b < a` since the σ = 3 kernel has the larger
normalization sum, so the two outputs differ. -/
theorem claimC1_counterexample :
    applyCircularBlurs true 1 1 1 1 c1Img [c1AreaA, c1AreaB] 0 0 0 ≠
      claimC1Composite true 1 1 1 1 c1Img [c1AreaA, c1AreaB] 0 0 0 := by
  rw [c1_code_value 0, c1_claim_value 0]
  have hS1 : 0 < gaussSum 1 3 := gaussSum_pos 1 3 (by norm_num)
  have hS2 : 0 < gaussSum 3 9 := gaussSum_pos 3 9 (by norm_num)
  have hlt := gaussSum_one_lt_gaussSum_three
  have ha : gauss1 1 3 1 = 1 / gaussSum 1 3 := by
    unfold gauss1
    rw [gaussRaw_center_sigma_one]
  have hb : gauss1 3 9 4 = 1 / gaussSum 3 9 := by
    unfold gauss1
    rw [gaussRaw_center_sigma_three]
  rw [ha, hb]
  have hbpos : 0 < 1 / gaussSum 3 9 := by positivity
  have hapos : 0 < 1 / gaussSum 1 3 := by positivity
  have hba : 1 / gaussSum 3 9 < 1 / gaussSum 1 3 :=
    one_div_lt_one_div_of_lt hS1 hlt
  have hss : 0 < 1 / gaussSum 3 9 * (1 / gaussSum 3 9) := mul_pos hbpos hbpos
  have htt : 1 / gaussSum 3 9 * (1 / gaussSum 3 9) <
      1 / gaussSum 1 3 * (1 / gaussSum 1 3) :=
    mul_self_lt_mul_self hbpos.le hba
  refine ne_of_lt ?_
  calc 1 / gaussSum 3 9 * (1 / gaussSum 3 9) *
        (1 / gaussSum 3 9 * (1 / gaussSum 3 9))
      < 1 / gaussSum 3 9 * (1 / gaussSum 3 9) *
        (1 / gaussSum 1 3 * (1 / gaussSum 1 3)) := by
        exact mul_lt_mul_of_pos_left htt hss
    _ = 1 / gaussSum 3 9 * (1 / gaussSum 3 9 *
        (1 / gaussSum 1 3 * (1 / gaussSum 1 3 * 1))) := by ring

theorem jadd_nan_left (x : JSNum) : jadd JSNum.nan x = JSNum.nan := by
  cases x <;> rfl

theorem jadd_real_nan (a : ℝ) : jadd (JSNum.real a) JSNum.nan = JSNum.nan := rfl

theorem jmul_nan_left (x : JSNum) : jmul JSNum.nan x = JSNum.nan := by
  cases x <;> rfl

theorem jdiv_nan_right (x : JSNum) : jdiv x JSNum.nan = JSNum.nan := by
  cases x <;> rfl

theorem foldl_jadd_nan (l : List JSNum) :
    l.foldl jadd JSNum.nan = JSNum.nan := by
  induction l with
  | nil => rfl
  | cons a t ih => rw [List.foldl_cons, jadd_nan_left, ih]

/-- A nonempty tap list of NaNs sums to NaN. -/
theorem jsum_all_nan (l : List JSNum) (hne : l ≠ [])
    (hall : ∀ v ∈ l, v = JSNum.nan) : jsum l = JSNum.nan := by
  cases l with
  | nil => exact absurd rfl hne
  | cons a t =>
      have ha : a = JSNum.nan := hall a (List.mem_cons_self a t)
      unfold jsum
      rw [List.foldl_cons, ha, jadd_real_nan, foldl_jadd_nan]

theorem kernelSizeOf_sigma_zero : kernelSizeOf 0 = 3 := by
  unfold kernelSizeOf
  rw [show ((0 : ℚ) * 3) = ((0 : ℤ) : ℚ) by norm_num, Int.floor_intCast]
  rfl

theorem jdiv_negOne_zero : jdiv (JSNum.real (-1)) (JSNum.real 0) = JSNum.neginf := by
  show (if (0 : ℝ) = 0 then
      (if (-1 : ℝ) = 0 then JSNum.nan
       else if (0 : ℝ) < -1 then JSNum.inf else JSNum.neginf)
    else JSNum.real (-1 / 0)) = JSNum.neginf
  rw [if_pos rfl, if_neg (by norm_num), if_neg (by norm_num)]

theorem jdiv_negZero_zero : jdiv (JSNum.real (-0)) (JSNum.real 0) = JSNum.nan := by
  show (if (0 : ℝ) = 0 then
      (if (-0 : ℝ) = 0 then JSNum.nan
       else if (0 : ℝ) < -0 then JSNum.inf else JSNum.neginf)
    else JSNum.real (-0 / 0)) = JSNum.nan
  rw [if_pos rfl, if_pos (by norm_num)]

theorem jsGaussRaw_zero_left : jsGaussRaw 0 3 0 = JSNum.real 0 := by
  unfold jsGaussRaw
  rw [show (((0 : ℕ) : ℝ) - (((3 : ℕ) : ℝ) - 1) / 2) *
      (((0 : ℕ) : ℝ) - (((3 : ℕ) : ℝ) - 1) / 2) = 1 by push_cast; norm_num]
  rw [show (2 * ((0 : ℚ) : ℝ) * ((0 : ℚ) : ℝ)) = 0 by push_cast; norm_num]
  show jexp (jdiv (JSNum.real (-1)) (JSNum.real 0)) = JSNum.real 0
  rw [jdiv_negOne_zero]
  rfl

theorem jsGaussRaw_zero_center : jsGaussRaw 0 3 1 = JSNum.nan := by
  unfold jsGaussRaw
  rw [show (((1 : ℕ) : ℝ) - (((3 : ℕ) : ℝ) - 1) / 2) *
      (((1 : ℕ) : ℝ) - (((3 : ℕ) : ℝ) - 1) / 2) = 0 by push_cast; norm_num]
  rw [show (2 * ((0 : ℚ) : ℝ) * ((0 : ℚ) : ℝ)) = 0 by push_cast; norm_num]
  show jexp (jdiv (JSNum.real (-0)) (JSNum.real 0)) = JSNum.nan
  rw [jdiv_negZero_zero]
  rfl

theorem jsGaussRaw_zero_right : jsGaussRaw 0 3 2 = JSNum.real 0 := by
  unfold jsGaussRaw
  rw [show (((2 : ℕ) : ℝ) - (((3 : ℕ) : ℝ) - 1) / 2) *
      (((2 : ℕ) : ℝ) - (((3 : ℕ) : ℝ) - 1) / 2) = 1 by push_cast; norm_num]
  rw [show (2 * ((0 : ℚ) : ℝ) * ((0 : ℚ) : ℝ)) = 0 by push_cast; norm_num]
  show jexp (jdiv (JSNum.real (-1)) (JSNum.real 0)) = JSNum.real 0
  rw [jdiv_negOne_zero]
  rfl

/-- The σ = 0 normalization sum is NaN: the kernel is
`[0, NaN, 0]` (`exp(-1/0) = exp(-∞) = 0`, `exp(-0/0) = exp(NaN) = NaN`). -/
theorem jsum_jsGaussKernel_zero : jsum (jsGaussKernel 0 3) = JSNum.nan := by
  have hk : jsGaussKernel 0 3 =
      [JSNum.real 0, JSNum.nan, JSNum.real 0] := by
    unfold jsGaussKernel
    rw [show List.range 3 = [0, 1, 2] from rfl]
    simp only [List.map_cons, List.map_nil]
    rw [jsGaussRaw_zero_left, jsGaussRaw_zero_center, jsGaussRaw_zero_right]
  rw [hk]
  unfold jsum
  show jadd (jadd (jadd (JSNum.real 0) (JSNum.real 0)) JSNum.nan) (JSNum.real 0) =
    JSNum.nan
  rfl

/-- Every normalized σ = 0 tap is NaN. -/
theorem jsGauss1_zero_nan (i : ℕ) : jsGauss1 0 3 i = JSNum.nan := by
  unfold jsGauss1
  rw [jsum_jsGaussKernel_zero, jdiv_nan_right]

/-- Every σ = 0 2D kernel tap is NaN. -/
theorem jsKernel2d_zero_nan (i j : ℕ) : jsKernel2d 0 3 i j = JSNum.nan := by
  unfold jsKernel2d
  rw [jsGauss1_zero_nan, jmul_nan_left]

/-- A depthwise pass with the all-NaN kernel outputs NaN at every pixel. -/
theorem jsConv_zero_nan (h w : ℕ) (img : JImage) (y x : ℕ) (ch : Fin 3) :
    jsDepthwiseConv2d h w 3 (jsKernel2d 0 3) img y x ch = JSNum.nan := by
  unfold jsDepthwiseConv2d
  refine jsum_all_nan _ (by simp [List.range_succ]) ?_
  intro v hv
  rcases List.mem_map.mp hv with ⟨i, _, rfl⟩
  refine jsum_all_nan _ (by simp [List.range_succ]) ?_
  intro u hu
  rcases List.mem_map.mp hu with ⟨j, _, rfl⟩
  rw [jsKernel2d_zero_nan, jmul_nan_left]

theorem c2_mask : areaMaskValue 1 1 1 1 c2Area 0 0 = 0 := by
  unfold areaMaskValue blurFeatherCircle c2Area
  norm_num [Real.sqrt_zero]

/-- C2 evaluated on the code at the failing input: with one region of
intensity 0 on a 1×1 half-grey image, the blur pipeline under JS float
semantics returns NaN at the probe pixel — not a value numerically
indistinguishable from the input 1/2.  (`sigma = 0/10 = 0` makes every
normalized kernel weight `NaN`, the convolved tensor is `NaN`, and
`NaN * (1 - mask)` keeps the blend `NaN` even where the mask keeps the
original.) -/
theorem intensityZero_blur_outputs_nan :
    jsApplyCircularBlurs true 1 1 1 1 c2Img [c2Area] 0 0 0 = JSNum.nan ∧
    c2Img 0 0 0 = JSNum.real (1 / 2) := by
  constructor
  · unfold jsApplyCircularBlurs
    rw [if_neg (by simp)]
    simp only [List.map_cons, List.map_nil, List.foldl_cons, List.foldl_nil]
    unfold jsBlendStep
    rw [if_pos rfl, c2_mask]
    have hsig : sigmaOf c2Area.blurIntensity = 0 := by
      unfold sigmaOf c2Area
      norm_num
    rw [hsig]
    unfold jsCodeBlurOne
    rw [kernelSizeOf_sigma_zero]
    rw [jsConv_zero_nan]
    show jadd (jmul (JSNum.real (1 / 2)) (JSNum.real 0))
      (jmul JSNum.nan (JSNum.real (1 - 0))) = JSNum.nan
    rw [jmul_nan_left]
    rfl
  · rfl

end PrivacyGnine

